import Mathlib

/-!
Verification of the forscore-cli dual-store consistency core.

This file shallowly embeds the parts of the Rust source that the spec's
claims are about:

* `src/itm.rs` — gzipped-plist mirror files for scores (`update_itm`,
  `delete_bookmark_from_itm`); the plist dictionary is modelled as an
  ordered association list with in-place-replacing insert, matching the
  `plist::Dictionary` API used by the code.
* `src/setlist_sync.rs` — setlist mirror files (`create_setlist_file`,
  `add_item_to_setlist_file`, `remove_item_from_setlist_file`,
  `reorder_setlist_file`).
* `src/models/key.rs` — the musical-key codec (`MusicalKey.from_code`,
  `MusicalKey.from_string`).
* `src/models/score.rs`, `src/models/setlist.rs` — identifier resolution
  and setlist membership over a relational-store state; SQL tables are
  modelled as lists of row structures in rowid (insertion) order, and each
  SQL statement as a pure function on that state.
* `src/models/meta.rs` — composer/genre get-or-create and merge.
* `src/commands/scores.rs` — the edit command's mutation sequence.

Mirror files are modelled by their parsed content (`Option PValue`:
`none` = file absent), since every claim is about the dictionary that is
read/rewritten, not about gzip framing.  UUID minting
(`uuid::Uuid::new_v4`) is nondeterministic in the source and is modelled
by an explicit supply of fresh tokens passed as an argument.
-/

namespace ForScore

/-- A plist value (`plist::Value` in the source): the mirror files are
gzipped binary plists whose top level is a dictionary. -/
inductive PValue where
  | str : String → PValue
  | int : Int → PValue
  | arr : List PValue → PValue
  | dict : List (String × PValue) → PValue
deriving Repr

/-- Ordered dictionary lookup (`plist::Dictionary::get`). -/
def dictLookup (d : List (String × PValue)) (k : String) : Option PValue :=
  match d with
  | [] => none
  | (k', v) :: rest => if k' = k then some v else dictLookup rest k

/-- Ordered dictionary insert (`plist::Dictionary::insert`): replaces the
value in place when the key is present, otherwise appends. -/
def dictInsert (d : List (String × PValue)) (k : String) (v : PValue) :
    List (String × PValue) :=
  match d with
  | [] => [(k, v)]
  | (k', v') :: rest =>
      if k' = k then (k', v) :: rest else (k', v') :: dictInsert rest k v

/-- The set of keys of a dictionary. -/
def dictKeys (d : List (String × PValue)) : List String := d.map (·.1)

/-! ## `src/itm.rs`: score mirror files -/

/-- Field updates for a score mirror (`ItmUpdate` in `src/itm.rs`). -/
structure ItmUpdate where
  title : Option String
  composer : Option String
  genre : Option String
  key : Option Int
  rating : Option Int
  difficulty : Option Int
deriving Repr

/-- Embeds `ItmUpdate::new()`. -/
def ItmUpdate.new : ItmUpdate :=
  ⟨none, none, none, none, none, none⟩

/-- Embeds `ItmUpdate::is_empty`. -/
def ItmUpdate.is_empty (u : ItmUpdate) : Bool :=
  u.title.isNone && u.composer.isNone && u.genre.isNone &&
  u.key.isNone && u.rating.isNone && u.difficulty.isNone

/-- Insert a string field when the update names it. -/
def applyOptStr (d : List (String × PValue)) (k : String) (v : Option String) :
    List (String × PValue) :=
  match v with
  | none => d
  | some s => dictInsert d k (.str s)

/-- Insert an integer field when the update names it. -/
def applyOptInt (d : List (String × PValue)) (k : String) (v : Option Int) :
    List (String × PValue) :=
  match v with
  | none => d
  | some n => dictInsert d k (.int n)

/-- The field-patching core of `update_itm` (`src/itm.rs` lines 126-149):
each named field is inserted into the dictionary, in source order. -/
def applyItmUpdate (d : List (String × PValue)) (u : ItmUpdate) :
    List (String × PValue) :=
  applyOptInt
    (applyOptInt
      (applyOptInt
        (applyOptStr
          (applyOptStr
            (applyOptStr d "title" u.title)
            "composer" u.composer)
          "genre" u.genre)
        "key" u.key)
      "rating" u.rating)
    "difficulty" u.difficulty

/-- The keys named (and set) by an update, i.e. the fields `update_itm`
writes. -/
def itmUpdatedKeys (u : ItmUpdate) : List String :=
  (if u.title.isSome then ["title"] else []) ++
  (if u.composer.isSome then ["composer"] else []) ++
  (if u.genre.isSome then ["genre"] else []) ++
  (if u.key.isSome then ["key"] else []) ++
  (if u.rating.isSome then ["rating"] else []) ++
  (if u.difficulty.isSome then ["difficulty"] else [])

/-- Embeds `update_itm` (`src/itm.rs` lines 105-155).  The mirror file is given by
its parsed content (`none` when the `.itm` file does not exist); the result
pairs the new file content with the `bool` the function returns. -/
def update_itm (file : Option PValue) (u : ItmUpdate) :
    Except String (Option PValue × Bool) :=
  if u.is_empty then .ok (file, false)
  else
    match file with
    | none => .ok (none, false)
    | some (.dict d) => .ok (some (.dict (applyItmUpdate d u)), true)
    | some _ => .error "ITM file is not a dictionary"

/-- Does a list entry match a removal token?  `retain` in the source keeps
dictionaries whose `Identifier` differs, dictionaries without a string
`Identifier`, and non-dictionary entries; so exactly the entries matched
here are dropped. -/
def entryMatchesToken (tok : String) (v : PValue) : Bool :=
  match v with
  | .dict d =>
      match dictLookup d "Identifier" with
      | some (.str id) => id = tok
      | _ => false
  | _ => false

/-- The `retain` step shared by `delete_bookmark_from_itm` and
`remove_item_from_setlist_file`: keep every entry that does not match. -/
def removeMatching (tok : String) (items : List PValue) : List PValue :=
  items.filter (fun v => !entryMatchesToken tok v)

/-- Embeds `delete_bookmark_from_itm` (`src/itm.rs` lines 190-237). -/
def delete_bookmark_from_itm (file : Option PValue)
    (bookmark_uuid : Option String) : Except String (Option PValue × Bool) :=
  match bookmark_uuid with
  | none => .ok (file, false)
  | some uuid =>
    match file with
    | none => .ok (none, false)
    | some (.dict d) =>
      match dictLookup d "bookmarks" with
      | some (.arr bookmarks) =>
          let kept := removeMatching uuid bookmarks
          if kept.length = bookmarks.length then .ok (file, false)
          else .ok (some (.dict (dictInsert d "bookmarks" (.arr kept))), true)
      | _ => .ok (file, false)
    | some _ => .error "ITM file is not a dictionary"

/-! ## `src/setlist_sync.rs`: setlist mirror files -/

/-- A score/bookmark entry of a setlist file (`SetlistItem` in
`src/setlist_sync.rs`). -/
structure SetlistItem where
  file_path : String
  title : String
  identifier : String
  is_bookmark : Bool
  first_page : Option Int
  last_page : Option Int
deriving Repr, DecidableEq

/-- The default dictionary `create_setlist_file` writes
(`src/setlist_sync.rs` lines 87-104). -/
def createSetlistDict (name : String) : List (String × PValue) :=
  [("title", .str name),
   ("items", .arr []),
   ("menuIndex", .int 0),
   ("kRecoverableDestination", .int 4),
   ("kRecoverablePaddedKeys",
     .arr [.str "items", .str "lastPlayed", .str "library",
           .str "menuIndex", .str "title"])]

/-- Embeds `create_setlist_file` (`src/setlist_sync.rs` lines 80-108): no-op when
the file already exists, else writes the default dictionary. -/
def create_setlist_file (file : Option PValue) (name : String) :
    Option PValue × Bool :=
  match file with
  | some f => (some f, false)
  | none => (some (.dict (createSetlistDict name)), true)

/-- The item dictionary built by `add_item_to_setlist_file` and
`reorder_setlist_file` (`src/setlist_sync.rs` lines 194-213, 269-288). -/
def itemEntryDict (it : SetlistItem) : List (String × PValue) :=
  let base := [("FilePath", PValue.str it.file_path),
               ("Title", PValue.str it.title),
               ("Identifier", PValue.str it.identifier)]
  if it.is_bookmark then
    base ++ [("Bookmark", PValue.str "YES")] ++
    (match it.first_page with
     | some p => [("First Page", PValue.str (toString p))]
     | none => []) ++
    (match it.last_page with
     | some p => [("Last Page", PValue.str (toString p))]
     | none => [])
  else base

/-- Embeds `add_item_to_setlist_file` (`src/setlist_sync.rs` lines 160-219): when
the file is absent it is first created with `create_setlist_file`; the
entry is appended unless one with the same `Identifier` is already
present. -/
def add_item_to_setlist_file (file : Option PValue) (name : String)
    (it : SetlistItem) : Except String (Option PValue × Bool) :=
  let file1 := if file.isNone then (create_setlist_file file name).1 else file
  match file1 with
  | none => .error "Setlist file not found"
  | some (.dict d) =>
    let d1 :=
      match dictLookup d "items" with
      | some (.arr _) => d
      | _ => dictInsert d "items" (.arr [])
    match dictLookup d1 "items" with
    | some (.arr items) =>
      if items.any (fun e =>
          match e with
          | .dict ed =>
              match dictLookup ed "Identifier" with
              | some (.str id) => id = it.identifier
              | _ => false
          | _ => false) then
        .ok (file1, false)
      else
        .ok (some (.dict (dictInsert d1 "items"
              (.arr (items ++ [.dict (itemEntryDict it)])))), true)
    | _ => .error "Failed to create items array"
  | some _ => .error "Setlist file is not a dictionary"

/-- Embeds `remove_item_from_setlist_file` (`src/setlist_sync.rs` lines 222-254). -/
def remove_item_from_setlist_file (file : Option PValue)
    (identifier : String) : Except String (Option PValue × Bool) :=
  match file with
  | none => .ok (none, false)
  | some (.dict d) =>
    match dictLookup d "items" with
    | some (.arr items) =>
        let kept := removeMatching identifier items
        if kept.length = items.length then .ok (file, false)
        else .ok (some (.dict (dictInsert d "items" (.arr kept))), true)
    | _ => .ok (file, false)
  | some _ => .error "Setlist file is not a dictionary"

/-- Embeds `reorder_setlist_file` (`src/setlist_sync.rs` lines 257-297): wholesale
replacement of the `items` array. -/
def reorder_setlist_file (file : Option PValue) (items : List SetlistItem) :
    Except String (Option PValue × Bool) :=
  match file with
  | none => .ok (none, false)
  | some (.dict d) =>
      .ok (some (.dict (dictInsert d "items"
            (.arr (items.map (fun it => .dict (itemEntryDict it)))))), true)
  | some _ => .error "Setlist file is not a dictionary"

/-! ## String helpers

The source uses Rust's `str::trim` / `split_whitespace` /
`to_uppercase` / `to_lowercase` and SQLite's ASCII-only `LOWER` /
case-insensitive `LIKE`.  These are modelled structurally over character
lists so that concrete instances evaluate in the kernel. -/

/-- Split on whitespace, discarding empty tokens (Rust
`str::split_whitespace`).  `cur` accumulates the current word reversed. -/
def splitWsAux : List Char → List Char → List String
  | [], cur => if cur.isEmpty then [] else [String.mk cur.reverse]
  | c :: rest, cur =>
      if c.isWhitespace then
        if cur.isEmpty then splitWsAux rest []
        else String.mk cur.reverse :: splitWsAux rest []
      else splitWsAux rest (c :: cur)

/-- The whitespace-separated words of a string. -/
def wordsOf (s : String) : List String := splitWsAux s.data []

/-- Rust `str::trim` (modelled over the character list). -/
def trimStr (s : String) : String :=
  String.mk
    (((s.data.dropWhile Char.isWhitespace).reverse.dropWhile
        Char.isWhitespace).reverse)

/-- Uppercase every character (`str::to_uppercase`; the note letters are
ASCII, and `♯`/`♭` have no case). -/
def upperStr (s : String) : String := String.mk (s.data.map Char.toUpper)

/-- Lowercase every character (`str::to_lowercase`, and SQLite `LOWER`,
which is ASCII-only; the strings involved are ASCII). -/
def lowerStr (s : String) : String := String.mk (s.data.map Char.toLower)

/-! ## `src/models/key.rs`: the key codec -/

/-- Embeds `MusicalKey` (`src/models/key.rs`). -/
structure MusicalKey where
  code : Int
  note : String
  mode : String
deriving Repr, DecidableEq

/-- Embeds `MusicalKey::from_code` (`src/models/key.rs` lines 15-48): decode a key
code; non-positive codes and unknown note digits yield `none`. -/
def MusicalKey.from_code (code : Int) : Option MusicalKey :=
  if code ≤ 0 then none
  else
    let note_num := code / 100
    let sharp := (code / 10) % 10
    let mode_num := code % 10
    let note_base : Option String :=
      if note_num = 1 then some "C"
      else if note_num = 2 then some "D"
      else if note_num = 3 then some "E"
      else if note_num = 4 then some "F"
      else if note_num = 5 then some "G"
      else if note_num = 6 then some "A"
      else if note_num = 7 then some "B"
      else none
    match note_base with
    | none => none
    | some nb =>
        some ⟨code,
              if sharp = 1 then nb ++ "#" else nb,
              if mode_num = 0 then "Major" else "Minor"⟩

/-- The note table of `MusicalKey::from_string` (`src/models/key.rs` lines
63-77), matched against the uppercased note token: note number 1-7 and
sharp flag. -/
def parseNote (t : String) : Option (Int × Int) :=
  let u := upperStr t
  if u = "C" then some (1, 0)
  else if u = "C#" ∨ u = "C♯" ∨ u = "DB" ∨ u = "D♭" then some (1, 1)
  else if u = "D" then some (2, 0)
  else if u = "D#" ∨ u = "D♯" ∨ u = "EB" ∨ u = "E♭" then some (2, 1)
  else if u = "E" then some (3, 0)
  else if u = "F" then some (4, 0)
  else if u = "F#" ∨ u = "F♯" ∨ u = "GB" ∨ u = "G♭" then some (4, 1)
  else if u = "G" then some (5, 0)
  else if u = "G#" ∨ u = "G♯" ∨ u = "AB" ∨ u = "A♭" then some (5, 1)
  else if u = "A" then some (6, 0)
  else if u = "A#" ∨ u = "A♯" ∨ u = "BB" ∨ u = "B♭" then some (6, 1)
  else if u = "B" then some (7, 0)
  else none

/-- The mode table of `MusicalKey::from_string` (`src/models/key.rs` lines
80-84), matched against the lowercased mode token: 0 = major, 1 = minor. -/
def parseMode (t : String) : Option Int :=
  let l := lowerStr t
  if l = "major" ∨ l = "maj" then some 0
  else if l = "minor" ∨ l = "min" then some 1
  else none

/-- Embeds `MusicalKey::from_string` (`src/models/key.rs` lines 51-88): trim,
split on whitespace, require exactly two tokens, look both up, and decode
the assembled code. -/
def MusicalKey.from_string (s : String) : Except String MusicalKey :=
  let t := trimStr s
  match wordsOf t with
  | [noteStr, modeStr] =>
      match parseNote noteStr, parseMode modeStr with
      | some (n, sh), some m =>
          match MusicalKey.from_code (n * 100 + sh * 10 + m) with
          | some k => .ok k
          | none => .error t
      | _, _ => .error t
  | _ => .error t

/-- Modelled from the spec (the comparison target for the round-trip
claim): the canonical sharp-equivalent spelling of a note token — flat
spellings map to the equivalent sharp note, e.g. `Db` to `C#`. -/
def spec_canonical_note (t : String) : Option String :=
  let u := upperStr t
  if u = "C" then some "C"
  else if u = "C#" ∨ u = "C♯" ∨ u = "DB" ∨ u = "D♭" then some "C#"
  else if u = "D" then some "D"
  else if u = "D#" ∨ u = "D♯" ∨ u = "EB" ∨ u = "E♭" then some "D#"
  else if u = "E" then some "E"
  else if u = "F" then some "F"
  else if u = "F#" ∨ u = "F♯" ∨ u = "GB" ∨ u = "G♭" then some "F#"
  else if u = "G" then some "G"
  else if u = "G#" ∨ u = "G♯" ∨ u = "AB" ∨ u = "A♭" then some "G#"
  else if u = "A" then some "A"
  else if u = "A#" ∨ u = "A♯" ∨ u = "BB" ∨ u = "B♭" then some "A#"
  else if u = "B" then some "B"
  else none

/-- Modelled from the spec: the full mode name a mode token canonicalizes
to. -/
def spec_canonical_mode (t : String) : Option String :=
  let l := lowerStr t
  if l = "major" ∨ l = "maj" then some "Major"
  else if l = "minor" ∨ l = "min" then some "Minor"
  else none

/-! ## Relational-store model

SQL tables are lists of row structures in rowid (insertion) order.  A
`SELECT` without `ORDER BY` yields rows in that order, `query_row` takes
the first match, `INSERT` appends, `DELETE`/`UPDATE` filter/map. -/

/-- Entity-tag constants (`entity` module in `src/db.rs`). -/
def entityBOOKMARK : Int := 5
/-- Embeds `entity::SCORE`. -/
def entitySCORE : Int := 6
/-- Embeds `entity::META`. -/
def entityMETA : Int := 9
/-- Embeds `entity::COMPOSER`. -/
def entityCOMPOSER : Int := 10
/-- Embeds `entity::GENRE`. -/
def entityGENRE : Int := 12

/-- A `ZITEM` row (scores and bookmarks, discriminated by `Z_ENT`).  Only
the columns the embedded operations read or write are modelled; the
rating/difficulty columns hold the raw value the edit command writes. -/
structure ItemRow where
  z_pk : Int
  z_ent : Int
  zpath : String
  ztitle : String
  zsorttitle : Option String
  zuuid : Option String
  zkey : Option Int
  zrating : Option Int
  zdifficulty : Option Int
  zstartpage : Option Int
  zendpage : Option Int
  zmodified : Option Int
  z_opt : Int
deriving Repr, DecidableEq

/-- A `ZCYLON` row (setlist membership links). -/
structure CylonRow where
  z_pk : Int
  z_ent : Int
  z_opt : Int
  zsetlist : Int
  zitem : Int
  z4_item : Int
  zshuffle : Int
  zuuid : Option String
deriving Repr, DecidableEq

/-- A `ZSETLIST` row. -/
structure SetlistRow where
  z_pk : Int
  z_ent : Int
  z_opt : Int
  ztitle : String
  zuuid : Option String
deriving Repr, DecidableEq

/-- A `ZMETA` row (shared metadata values; composers use `ZVALUE`, genres
`ZVALUE2`). -/
structure MetaRow where
  z_pk : Int
  z_ent : Int
  z_opt : Int
  zvalue : Option String
  zvalue2 : Option String
deriving Repr, DecidableEq

/-- The relational store: the tables the claims touch.  `primaryKey` is
the `Z_PRIMARYKEY` id-allocator table as (Z_ENT, Z_MAX) pairs;
`composersLink` is `Z_4COMPOSERS` as (Z_4ITEMS1, Z_10COMPOSERS) pairs;
`genresLink` is `Z_4GENRES` as (Z_4ITEMS4, Z_12GENRES) pairs. -/
structure DbState where
  items : List ItemRow
  cylon : List CylonRow
  setlists : List SetlistRow
  meta : List MetaRow
  composersLink : List (Int × Int)
  genresLink : List (Int × Int)
  primaryKey : List (Int × Int)
deriving Repr, DecidableEq

/-- Errors of the embedded operations (`ForScoreError` in
`src/error.rs`; only the variants the embedded code raises). -/
inductive Err where
  | scoreNotFound : String → Err
  | setlistNotFound : String → Err
  | composerNotFound : String → Err
  | ambiguousIdentifier : String → Err
  | invalidKey : String → Err
  | invalidRating : Int → Err
  | invalidDifficulty : Int → Err
  | other : String → Err
deriving Repr, DecidableEq

/-- ASCII-case-insensitive containment: SQLite `LIKE '%pat%'` on plain
text (no `%`/`_` in the needle) matches case-insensitively for ASCII. -/
def charsStartWith : List Char → List Char → Bool
  | [], _ => true
  | _ :: _, [] => false
  | a :: as, b :: bs => a = b && charsStartWith as bs

/-- Does `hay` contain `needle` as a contiguous run? -/
def charsContain (needle : List Char) : List Char → Bool
  | [] => charsStartWith needle []
  | c :: rest => charsStartWith needle (c :: rest) || charsContain needle rest

/-- SQLite `x LIKE '%pat%'` for plain `pat`: ASCII-case-insensitive
substring test. -/
def likeContains (hay pat : String) : Bool :=
  charsContain (lowerStr pat).data (lowerStr hay).data

/-- Rust `str::parse::<i64>`: optional sign, one or more ASCII digits,
nothing else; out-of-range values fail. -/
def parseI64 (s : String) : Option Int :=
  let (sign, digits) :=
    match s.data with
    | '-' :: rest => ((-1 : Int), rest)
    | '+' :: rest => ((1 : Int), rest)
    | cs => ((1 : Int), cs)
  if digits.isEmpty ∨ digits.any (fun c => !c.isDigit) then none
  else
    let v : Int :=
      sign * digits.foldl (fun a c => a * 10 + ((c.toNat : Int) - 48)) 0
    if v < -(2 ^ 63) ∨ 2 ^ 63 - 1 < v then none else some v

/-! ## `src/models/score.rs`: score resolution -/

/-- Embeds `get_score_by_id` (`src/models/score.rs` lines 207-222): first `ZITEM`
row with that primary key and the score entity-tag. -/
def get_score_by_id (items : List ItemRow) (id : Int) : Except Err ItemRow :=
  match items.find? (fun r => r.z_pk = id && r.z_ent = entitySCORE) with
  | some r => .ok r
  | none => .error (.scoreNotFound (toString id))

/-- Embeds `get_score_by_path` (`src/models/score.rs` lines 225-242): exact path
match. -/
def get_score_by_path (items : List ItemRow) (path : String) :
    Option ItemRow :=
  items.find? (fun r => r.zpath = path && r.z_ent = entitySCORE)

/-- Embeds `get_score_by_title` (`src/models/score.rs` lines 245-298): exact
title, then ASCII-case-insensitive exact title, then `LIKE`-containment
with `LIMIT 2`; two or more containment matches are ambiguous. -/
def get_score_by_title (items : List ItemRow) (title : String) :
    Except Err ItemRow :=
  match items.find? (fun r => r.ztitle = title && r.z_ent = entitySCORE) with
  | some r => .ok r
  | none =>
    match items.find? (fun r =>
        lowerStr r.ztitle = lowerStr title && r.z_ent = entitySCORE) with
    | some r => .ok r
    | none =>
      let ms := (items.filter (fun r =>
        likeContains r.ztitle title && r.z_ent = entitySCORE)).take 2
      match ms with
      | [] => .error (.scoreNotFound title)
      | [r] => .ok r
      | _ => .error (.ambiguousIdentifier title)

/-- Embeds `resolve_score` (`src/models/score.rs` lines 301-316): numeric id
first, then exact path, then title resolution. -/
def resolve_score (items : List ItemRow) (identifier : String) :
    Except Err ItemRow :=
  match parseI64 identifier with
  | some id =>
    match get_score_by_id items id with
    | .ok r => .ok r
    | .error _ =>
      match get_score_by_path items identifier with
      | some r => .ok r
      | none => get_score_by_title items identifier
  | none =>
    match get_score_by_path items identifier with
    | some r => .ok r
    | none => get_score_by_title items identifier

/-! ## `src/models/setlist.rs`: setlist resolution and membership -/

/-- Embeds `get_setlist_by_id` (`src/models/setlist.rs` lines 39-55). -/
def get_setlist_by_id (setlists : List SetlistRow) (id : Int) :
    Except Err SetlistRow :=
  match setlists.find? (fun r => r.z_pk = id) with
  | some r => .ok r
  | none => .error (.setlistNotFound (toString id))

/-- Embeds `get_setlist_by_name` (`src/models/setlist.rs` lines 58-120): exact
name, then ASCII-case-insensitive name, then `LIKE`-containment with
`LIMIT 2`. -/
def get_setlist_by_name (setlists : List SetlistRow) (name : String) :
    Except Err SetlistRow :=
  match setlists.find? (fun r => r.ztitle = name) with
  | some r => .ok r
  | none =>
    match setlists.find? (fun r => lowerStr r.ztitle = lowerStr name) with
    | some r => .ok r
    | none =>
      let ms := (setlists.filter (fun r => likeContains r.ztitle name)).take 2
      match ms with
      | [] => .error (.setlistNotFound name)
      | [r] => .ok r
      | _ => .error (.ambiguousIdentifier name)

/-- Embeds `resolve_setlist` (`src/models/setlist.rs` lines 123-130). -/
def resolve_setlist (setlists : List SetlistRow) (identifier : String) :
    Except Err SetlistRow :=
  match parseI64 identifier with
  | some id =>
    match get_setlist_by_id setlists id with
    | .ok r => .ok r
    | .error _ => get_setlist_by_name setlists identifier
  | none => get_setlist_by_name setlists identifier

/-- Embeds `SELECT COALESCE(MAX(Z_PK), 0)` over a list of primary keys. -/
def maxPk (pks : List Int) : Int := pks.foldl max 0

/-- Embeds `add_score_to_setlist` (`src/models/setlist.rs` lines 187-223): no-op
when a (setlist, item) link exists; otherwise reuse the first non-null
`ZUUID` of any link row of that item, minting `freshUuid` only when none
exists, and append the link row (`Z_ENT` 2, `Z4_ITEM` = score entity). -/
def add_score_to_setlist (cylon : List CylonRow) (setlist_id score_id : Int)
    (freshUuid : String) : List CylonRow :=
  if cylon.any (fun r => r.zsetlist = setlist_id && r.zitem = score_id) then
    cylon
  else
    let max_pk := maxPk (cylon.map (·.z_pk))
    let existing_uuid :=
      match cylon.find? (fun r => r.zitem = score_id && r.zuuid.isSome) with
      | some r => r.zuuid
      | none => none
    let uuid := existing_uuid.getD freshUuid
    cylon ++ [⟨max_pk + 1, 2, 1, setlist_id, score_id, entitySCORE, 0,
               some uuid⟩]

/-- Insertion sort by `Z_PK` (the `ORDER BY Z_PK` of the member query). -/
def insertByPk (r : CylonRow) : List CylonRow → List CylonRow
  | [] => [r]
  | x :: xs => if r.z_pk ≤ x.z_pk then r :: x :: xs else x :: insertByPk r xs

/-- Sort link rows by `Z_PK`. -/
def sortByPk (l : List CylonRow) : List CylonRow := l.foldr insertByPk []

/-- Embeds `reorder_score_in_setlist` (`src/models/setlist.rs` lines 235-284):
read the members in `Z_PK` order, move the item to the (1-based, clamped)
new position, delete every link row of the setlist, and re-insert the
members in the new order — each re-inserted row gets a freshly minted
UUID (`fresh i` for the i-th row) and `Z4_ITEM` set to the item id. -/
def reorder_score_in_setlist (cylon : List CylonRow)
    (setlist_id score_id : Int) (new_position : Nat)
    (fresh : Nat → String) : Except Err (List CylonRow) :=
  let members := sortByPk (cylon.filter (fun r => r.zsetlist = setlist_id))
  let order := members.map (·.zitem)
  match order.findIdx? (fun id => id = score_id) with
  | none =>
      .error (.other ("Score " ++ toString score_id ++ " not in setlist " ++
        toString setlist_id))
  | some current_pos =>
    let max_base := maxPk (cylon.map (·.z_pk))
    let removed := order.getD current_pos 0
    let rest := order.eraseIdx current_pos
    let insert_pos := min (new_position - 1) rest.length
    let new_order := rest.take insert_pos ++ [removed] ++ rest.drop insert_pos
    let deleted := cylon.filter (fun r => !(r.zsetlist = setlist_id))
    .ok (deleted ++ new_order.enum.map (fun p =>
      ⟨max_base + 1 + (p.1 : Int), 2, 1, setlist_id, p.2, p.2, 0,
       some (fresh p.1)⟩))

/-- The mirror-rebuild query of the reorder command
(`src/commands/setlists.rs` lines 229-258): members in `Z_PK` order joined
with `ZITEM`, each row turned into a `SetlistItem` whose identifier is the
link row's `ZUUID` and whose bookmark flag comes from `Z4_ITEM`.  (A NULL
`ZUUID` would make the source query error out; the embedding is only
applied to states in which every link row carries a UUID.) -/
def mirrorItemsForSetlist (cylon : List CylonRow) (items : List ItemRow)
    (setlist_id : Int) : List SetlistItem :=
  (sortByPk (cylon.filter (fun r => r.zsetlist = setlist_id))).filterMap
    (fun c =>
      match items.find? (fun i => i.z_pk = c.zitem) with
      | none => none
      | some i =>
        let is_bookmark := c.z4_item = entityBOOKMARK
        some ⟨i.zpath, i.ztitle, c.zuuid.getD "", is_bookmark,
              if is_bookmark then i.zstartpage else none,
              if is_bookmark then i.zendpage else none⟩)

/-! ## `src/models/meta.rs`: shared metadata -/

/-- Embeds `get_composer_by_name` (`src/models/meta.rs` lines 60-75): first
`ZMETA` row with the composer entity-tag and that `ZVALUE`. -/
def get_composer_by_name (meta : List MetaRow) (name : String) :
    Except Err MetaRow :=
  match meta.find? (fun m =>
      m.z_ent = entityCOMPOSER && m.zvalue = some name) with
  | some m => .ok m
  | none => .error (.composerNotFound name)

/-- Embeds `get_or_create_composer` (`src/models/meta.rs` lines 159-184): look up
by exact value; when absent, insert a row with primary key
`MAX(Z_PK) over all of ZMETA + 1` and the composer entity-tag, and set the
`Z_PRIMARYKEY` entry whose `Z_ENT` is `entity::META` (not the composer
tag) to the new id.  Returns the new state and the composer id. -/
def get_or_create_composer (st : DbState) (name : String) : DbState × Int :=
  match get_composer_by_name st.meta name with
  | .ok m => (st, m.z_pk)
  | .error _ =>
    let max_pk := maxPk (st.meta.map (·.z_pk))
    let st' :=
      { st with
        meta := st.meta ++ [⟨max_pk + 1, entityCOMPOSER, 1, some name, none⟩],
        primaryKey := st.primaryKey.map (fun p =>
          if p.1 = entityMETA then (p.1, max_pk + 1) else p) }
    (st', max_pk + 1)

/-- Embeds `get_or_create_genre` (`src/models/meta.rs` lines 187-210): look up by
exact `ZVALUE2`; when absent, insert a row with primary key
`MAX(Z_PK) over all of ZMETA + 1` and the genre entity-tag.  No
`Z_PRIMARYKEY` update is performed. -/
def get_or_create_genre (st : DbState) (name : String) : DbState × Int :=
  match st.meta.find? (fun m =>
      m.z_ent = entityGENRE && m.zvalue2 = some name) with
  | some m => (st, m.z_pk)
  | .none =>
    let max_pk := maxPk (st.meta.map (·.z_pk))
    let st' :=
      { st with
        meta := st.meta ++ [⟨max_pk + 1, entityGENRE, 1, none, some name⟩] }
    (st', max_pk + 1)

/-! ## Multi-statement mutations and their commit behaviour

Every write in the source goes through bare `conn.execute(...)?` calls: no
transaction is ever opened, so each statement commits on its own and an
error after some statements have run leaves their effects in place.  The
executor below makes that explicit: `failAt` is the index of the statement
that fails (disk full, etc.); statements before it have already
committed. -/

/-- Embeds `UPDATE Z_4COMPOSERS SET Z_10COMPOSERS = target WHERE Z_10COMPOSERS =
source` (`merge_composers`, `src/models/meta.rs` lines 96-99). -/
def relinkComposerRows (source target : Int) (st : DbState) : DbState :=
  { st with composersLink := st.composersLink.map (fun p =>
      if p.2 = source then (p.1, target) else p) }

/-- Embeds `DELETE FROM ZMETA WHERE Z_PK = id` (`merge_composers`,
`src/models/meta.rs` lines 102-105). -/
def deleteMetaRow (id : Int) (st : DbState) : DbState :=
  { st with meta := st.meta.filter (fun m => !(m.z_pk = id)) }

/-- Embeds `DELETE FROM Z_4COMPOSERS WHERE Z_4ITEMS1 = score_id`
(`src/commands/scores.rs` lines 218-221). -/
def deleteComposerLinks (score_id : Int) (st : DbState) : DbState :=
  { st with composersLink := st.composersLink.filter (fun p =>
      !(p.1 = score_id)) }

/-- Embeds `INSERT INTO Z_4COMPOSERS (Z_4ITEMS1, Z_10COMPOSERS) VALUES (score_id,
composer_id)` (`src/commands/scores.rs` lines 224-227). -/
def insertComposerLink (score_id composer_id : Int) (st : DbState) :
    DbState :=
  { st with composersLink := st.composersLink ++ [(score_id, composer_id)] }

/-- Embeds `DELETE FROM Z_4GENRES WHERE Z_4ITEMS4 = score_id`
(`src/commands/scores.rs` lines 243-246). -/
def deleteGenreLinks (score_id : Int) (st : DbState) : DbState :=
  { st with genresLink := st.genresLink.filter (fun p => !(p.1 = score_id)) }

/-- Embeds `INSERT INTO Z_4GENRES (Z_4ITEMS4, Z_12GENRES)`
(`src/commands/scores.rs` lines 249-252). -/
def insertGenreLink (score_id genre_id : Int) (st : DbState) : DbState :=
  { st with genresLink := st.genresLink ++ [(score_id, genre_id)] }

/-- Embeds `mark_modified` (`src/db.rs` lines 87-94): set `ZMODIFIED` to the
current timestamp (passed in, since it is read from the clock) and bump
`Z_OPT`. -/
def markModified (item_id now : Int) (st : DbState) : DbState :=
  { st with items := st.items.map (fun r =>
      if r.z_pk = item_id then
        { r with zmodified := some now, z_opt := r.z_opt + 1 }
      else r) }

/-- The statement sequence of `merge_composers` (`src/models/meta.rs`
lines 91-108), after both composers resolved: relink every
`Z_4COMPOSERS` row, then delete the source `ZMETA` row. -/
def mergeComposersStmts (source_id target_id : Int) :
    List (DbState → DbState) :=
  [relinkComposerRows source_id target_id, deleteMetaRow source_id]

/-- The statement sequence of a composer replacement inside the edit
command (`src/commands/scores.rs` lines 214-228 and 258): delete the old
link rows, insert the new link, bump the revision via `mark_modified`. -/
def replaceComposerStmts (score_id composer_id now : Int) :
    List (DbState → DbState) :=
  [deleteComposerLinks score_id, insertComposerLink score_id composer_id,
   markModified score_id now]

/-- Run a statement sequence the way the source does (each `conn.execute`
autocommits): the statement at index `failAt` fails, statements before it
have already taken effect; `failAt ≥ length` means every statement
succeeds.  Returns the final store state and whether the run succeeded. -/
def runAutocommit : List (DbState → DbState) → Nat → DbState → DbState × Bool
  | [], _, st => (st, true)
  | _ :: _, 0, st => (st, false)
  | s :: rest, failAt + 1, st => runAutocommit rest failAt (s st)

/-- Modelled from the spec (`§4.3`: "if any statement fails, none take
effect"): transactional execution of the same sequence — a failing run
returns the store unchanged. -/
def runTransactional (stmts : List (DbState → DbState)) (failAt : Nat)
    (st : DbState) : DbState × Bool :=
  if failAt < stmts.length then (st, false)
  else (stmts.foldl (fun s f => f s) st, true)

/-- Apply a statement sequence in order (all statements succeed). -/
def applySeq (stmts : List (DbState → DbState)) (st : DbState) : DbState :=
  stmts.foldl (fun s f => f s) st

/-- Embeds `merge_composers` (`src/models/meta.rs` lines 91-108) with no failure
injected: resolve both names, then run the two statements. -/
def merge_composers (st : DbState) (source_name target_name : String) :
    Except Err DbState :=
  match get_composer_by_name st.meta source_name with
  | .error e => .error e
  | .ok src =>
    match get_composer_by_name st.meta target_name with
    | .error e => .error e
    | .ok tgt => .ok (applySeq (mergeComposersStmts src.z_pk tgt.z_pk) st)

/-! ## `src/commands/scores.rs`: the edit command -/

/-- The arguments of `scores edit` that reach the handler
(`ScoresCommand::Edit`). -/
structure EditArgs where
  identifier : String
  title : Option String
  composer : Option String
  genre : Option String
  key : Option String
  rating : Option Int
  difficulty : Option Int
  dry_run : Bool
deriving Repr

/-- Embeds `UPDATE ZITEM SET ZTITLE = ?, ZSORTTITLE = ? WHERE Z_PK = ?`
(`src/commands/scores.rs` lines 143-147; the sort title is the lowercased
title). -/
def updateTitle (pk : Int) (t : String) (st : DbState) : DbState :=
  { st with items := st.items.map (fun r =>
      if r.z_pk = pk then { r with ztitle := t, zsorttitle := some (lowerStr t) }
      else r) }

/-- Embeds `UPDATE ZITEM SET ZKEY = ? WHERE Z_PK = ?` (`src/commands/scores.rs`
lines 161-164). -/
def updateKey (pk : Int) (code : Int) (st : DbState) : DbState :=
  { st with items := st.items.map (fun r =>
      if r.z_pk = pk then { r with zkey := some code } else r) }

/-- Embeds `UPDATE ZITEM SET ZRATING = ? WHERE Z_PK = ?` (`src/commands/scores.rs`
lines 180-183). -/
def updateRating (pk : Int) (v : Int) (st : DbState) : DbState :=
  { st with items := st.items.map (fun r =>
      if r.z_pk = pk then { r with zrating := some v } else r) }

/-- Embeds `UPDATE ZITEM SET ZDIFFICULTY = ? WHERE Z_PK = ?`
(`src/commands/scores.rs` lines 199-202). -/
def updateDifficulty (pk : Int) (v : Int) (st : DbState) : DbState :=
  { st with items := st.items.map (fun r =>
      if r.z_pk = pk then { r with zdifficulty := some v } else r) }

/-- The relational part of the edit handler (`src/commands/scores.rs`
lines 138-258), after the score resolved: the field blocks run in source
order — title, key, rating, difficulty, composer, genre — each block
validating (and, outside dry-run, writing) on its own, and
`mark_modified` runs last.  A validation failure returns the store state
reached so far together with the error, exactly as the early `return
Err(...)` after the preceding blocks' `conn.execute` calls does. -/
def editRelational (st0 : DbState) (score_pk : Int) (a : EditArgs)
    (now : Int) : Except (DbState × Err) DbState :=
  let st1 :=
    match a.title with
    | some t => if a.dry_run then st0 else updateTitle score_pk t st0
    | none => st0
  match (match a.key with
         | none => Except.ok st1
         | some ks =>
           match MusicalKey.from_string ks with
           | .error t => Except.error (st1, Err.invalidKey t)
           | .ok k =>
               Except.ok (if a.dry_run then st1
                          else updateKey score_pk k.code st1)) with
  | .error p => .error p
  | .ok st2 =>
    match (match a.rating with
           | none => Except.ok st2
           | some r =>
             if r < 1 ∨ 6 < r then Except.error (st2, Err.invalidRating r)
             else Except.ok (if a.dry_run then st2
                             else updateRating score_pk r st2)) with
    | .error p => .error p
    | .ok st3 =>
      match (match a.difficulty with
             | none => Except.ok st3
             | some d =>
               if d < 1 ∨ 5 < d then
                 Except.error (st3, Err.invalidDifficulty d)
               else Except.ok (if a.dry_run then st3
                               else updateDifficulty score_pk d st3)) with
      | .error p => .error p
      | .ok st4 =>
        let st5 :=
          match a.composer with
          | none => st4
          | some name =>
            if a.dry_run then st4
            else
              let pc := get_or_create_composer st4 name
              insertComposerLink score_pk pc.2
                (deleteComposerLinks score_pk pc.1)
        let st6 :=
          match a.genre with
          | none => st5
          | some name =>
            if a.dry_run then st5
            else
              let pg := get_or_create_genre st5 name
              insertGenreLink score_pk pg.2 (deleteGenreLinks score_pk pg.1)
        .ok (if a.dry_run then st6 else markModified score_pk now st6)

/-- The outcome of the edit command: final store state, final mirror
content, the command's error if it failed, and the warning text when the
mirror write failed after a successful relational update. -/
structure EditOutcome where
  db : DbState
  mirror : Option PValue
  err : Option Err
  mirrorWarning : Option String
deriving Repr

/-- The `ItmUpdate` the edit handler builds (`src/commands/scores.rs`
lines 261-271); the key string is re-parsed and silently skipped if
invalid (unreachable there, since an invalid key already aborted). -/
def itmUpdateOfArgs (a : EditArgs) : ItmUpdate :=
  { title := a.title, composer := a.composer, genre := a.genre,
    key := match a.key with
           | some ks =>
             match MusicalKey.from_string ks with
             | .ok k => some k.code
             | .error _ => none
           | none => none,
    rating := a.rating, difficulty := a.difficulty }

/-- The `scores edit` handler (`src/commands/scores.rs` lines 111-282):
resolve, apply the relational blocks, then — outside dry-run — patch the
mirror file, downgrading a mirror failure to a warning. -/
def scoresEditHandle (st0 : DbState) (mirror : Option PValue) (a : EditArgs)
    (now : Int) : EditOutcome :=
  match resolve_score st0.items a.identifier with
  | .error e => ⟨st0, mirror, some e, none⟩
  | .ok score =>
    match editRelational st0 score.z_pk a now with
    | .error p => ⟨p.1, mirror, some p.2, none⟩
    | .ok st =>
      if a.dry_run then ⟨st, mirror, none, none⟩
      else
        match update_itm mirror (itmUpdateOfArgs a) with
        | .ok m => ⟨st, m.1, none, none⟩
        | .error msg => ⟨st, mirror, none, some msg⟩

/-! ## Theorems -/

/-- Inserting a key leaves every other key's value unchanged. -/
theorem dictLookup_dictInsert_ne (d : List (String × PValue)) (k k' : String)
    (v : PValue) (h : k' ≠ k) :
    dictLookup (dictInsert d k v) k' = dictLookup d k' := by
  induction d with
  | nil => simp [dictInsert, dictLookup, Ne.symm h]
  | cons p rest ih =>
      by_cases hp : p.1 = k
      · simp [dictInsert, dictLookup, hp, Ne.symm h]
      · simp only [dictInsert, hp, if_false]
        by_cases hp' : p.1 = k'
        · simp [dictLookup, hp']
        · simp [dictLookup, hp', ih]

/-- Inserting a key makes lookup of that key return the new value. -/
theorem dictLookup_dictInsert_self (d : List (String × PValue)) (k : String)
    (v : PValue) : dictLookup (dictInsert d k v) k = some v := by
  induction d with
  | nil => simp [dictInsert, dictLookup]
  | cons p rest ih =>
      by_cases hp : p.1 = k
      · simp [dictInsert, dictLookup, hp]
      · simp [dictInsert, dictLookup, hp, ih]

/-- Embeds `applyOptStr` leaves keys other than its own unchanged. -/
theorem applyOptStr_lookup_ne (d : List (String × PValue)) (k : String)
    (v : Option String) (k' : String) (h : k' ≠ k) :
    dictLookup (applyOptStr d k v) k' = dictLookup d k' := by
  cases v with
  | none => rfl
  | some s => exact dictLookup_dictInsert_ne d k k' _ h

/-- Embeds `applyOptInt` leaves keys other than its own unchanged. -/
theorem applyOptInt_lookup_ne (d : List (String × PValue)) (k : String)
    (v : Option Int) (k' : String) (h : k' ≠ k) :
    dictLookup (applyOptInt d k v) k' = dictLookup d k' := by
  cases v with
  | none => rfl
  | some n => exact dictLookup_dictInsert_ne d k k' _ h

/-- Embeds `applyOptStr` leaves a key unchanged provided the key differs whenever
the field is actually set. -/
theorem applyOptStr_lookup_frame (d : List (String × PValue)) (k : String)
    (v : Option String) (k' : String) (h : v.isSome → k' ≠ k) :
    dictLookup (applyOptStr d k v) k' = dictLookup d k' := by
  cases v with
  | none => rfl
  | some s => exact dictLookup_dictInsert_ne d k k' _ (h rfl)

/-- Embeds `applyOptInt` analogue of `applyOptStr_lookup_frame`. -/
theorem applyOptInt_lookup_frame (d : List (String × PValue)) (k : String)
    (v : Option Int) (k' : String) (h : v.isSome → k' ≠ k) :
    dictLookup (applyOptInt d k v) k' = dictLookup d k' := by
  cases v with
  | none => rfl
  | some n => exact dictLookup_dictInsert_ne d k k' _ (h rfl)

/-- The patch core leaves every key the update does not name unchanged. -/
theorem applyItmUpdate_lookup_frame (d : List (String × PValue))
    (u : ItmUpdate) (k : String) (hk : k ∉ itmUpdatedKeys u) :
    dictLookup (applyItmUpdate d u) k = dictLookup d k := by
  have ht : k = "title" → u.title.isSome = false := by
    rintro rfl
    cases hb : u.title.isSome
    · rfl
    · exact absurd (by simp [itmUpdatedKeys, hb]) hk
  have hc : k = "composer" → u.composer.isSome = false := by
    rintro rfl
    cases hb : u.composer.isSome
    · rfl
    · exact absurd (by simp [itmUpdatedKeys, hb]) hk
  have hg : k = "genre" → u.genre.isSome = false := by
    rintro rfl
    cases hb : u.genre.isSome
    · rfl
    · exact absurd (by simp [itmUpdatedKeys, hb]) hk
  have hke : k = "key" → u.key.isSome = false := by
    rintro rfl
    cases hb : u.key.isSome
    · rfl
    · exact absurd (by simp [itmUpdatedKeys, hb]) hk
  have hr : k = "rating" → u.rating.isSome = false := by
    rintro rfl
    cases hb : u.rating.isSome
    · rfl
    · exact absurd (by simp [itmUpdatedKeys, hb]) hk
  have hdi : k = "difficulty" → u.difficulty.isSome = false := by
    rintro rfl
    cases hb : u.difficulty.isSome
    · rfl
    · exact absurd (by simp [itmUpdatedKeys, hb]) hk
  unfold applyItmUpdate
  rw [applyOptInt_lookup_frame _ _ _ _ (fun hs heq => by
        simp [hdi heq] at hs),
      applyOptInt_lookup_frame _ _ _ _ (fun hs heq => by
        simp [hr heq] at hs),
      applyOptInt_lookup_frame _ _ _ _ (fun hs heq => by
        simp [hke heq] at hs),
      applyOptStr_lookup_frame _ _ _ _ (fun hs heq => by
        simp [hg heq] at hs),
      applyOptStr_lookup_frame _ _ _ _ (fun hs heq => by
        simp [hc heq] at hs),
      applyOptStr_lookup_frame _ _ _ _ (fun hs heq => by
        simp [ht heq] at hs)]

/-- C7: for every mirror dictionary and every patch, the rewritten
dictionary maps every key the update does not name — keys this system does
not understand included — to its previous value, and maps each named field
to the update's value (`update_itm`, `src/itm.rs` lines 105-155). -/
theorem c7_mirror_patch_overwrites_only_named_fields
    (d d' : List (String × PValue)) (u : ItmUpdate) (b : Bool)
    (h : update_itm (some (.dict d)) u = .ok (some (.dict d'), b)) :
    (∀ k, k ∉ itmUpdatedKeys u → dictLookup d' k = dictLookup d k) ∧
    (∀ s, u.title = some s → dictLookup d' "title" = some (.str s)) ∧
    (∀ s, u.composer = some s → dictLookup d' "composer" = some (.str s)) ∧
    (∀ s, u.genre = some s → dictLookup d' "genre" = some (.str s)) ∧
    (∀ n, u.key = some n → dictLookup d' "key" = some (.int n)) ∧
    (∀ n, u.rating = some n → dictLookup d' "rating" = some (.int n)) ∧
    (∀ n, u.difficulty = some n →
      dictLookup d' "difficulty" = some (.int n)) := by
  unfold update_itm at h
  by_cases he : u.is_empty
  · -- empty update: the file is returned unchanged and no field is set
    simp only [he, if_true, Except.ok.injEq, Prod.mk.injEq,
      Option.some.injEq, PValue.dict.injEq] at h
    obtain ⟨rfl, -⟩ := h
    have hf := he
    simp only [ItmUpdate.is_empty, Bool.and_eq_true,
      Option.isNone_iff_eq_none] at hf
    obtain ⟨⟨⟨⟨⟨h1, h2⟩, h3⟩, h4⟩, h5⟩, h6⟩ := hf
    refine ⟨fun k _ => rfl, ?_, ?_, ?_, ?_, ?_, ?_⟩ <;>
      intro x hx <;> simp_all
  · -- non-empty update: the dictionary is the patched one
    simp only [he, if_false, Bool.false_eq_true, Except.ok.injEq,
      Prod.mk.injEq, Option.some.injEq, PValue.dict.injEq] at h
    obtain ⟨rfl, -⟩ := h
    refine ⟨fun k hk => applyItmUpdate_lookup_frame d u k hk, ?_, ?_, ?_,
      ?_, ?_, ?_⟩
    · intro s hs
      unfold applyItmUpdate
      rw [applyOptInt_lookup_frame _ _ _ _ (fun _ => by decide),
          applyOptInt_lookup_frame _ _ _ _ (fun _ => by decide),
          applyOptInt_lookup_frame _ _ _ _ (fun _ => by decide),
          applyOptStr_lookup_frame _ _ _ _ (fun _ => by decide),
          applyOptStr_lookup_frame _ _ _ _ (fun _ => by decide), hs]
      exact dictLookup_dictInsert_self d "title" (.str s)
    · intro s hs
      unfold applyItmUpdate
      rw [applyOptInt_lookup_frame _ _ _ _ (fun _ => by decide),
          applyOptInt_lookup_frame _ _ _ _ (fun _ => by decide),
          applyOptInt_lookup_frame _ _ _ _ (fun _ => by decide),
          applyOptStr_lookup_frame _ _ _ _ (fun _ => by decide), hs]
      exact dictLookup_dictInsert_self _ "composer" (.str s)
    · intro s hs
      unfold applyItmUpdate
      rw [applyOptInt_lookup_frame _ _ _ _ (fun _ => by decide),
          applyOptInt_lookup_frame _ _ _ _ (fun _ => by decide),
          applyOptInt_lookup_frame _ _ _ _ (fun _ => by decide), hs]
      exact dictLookup_dictInsert_self _ "genre" (.str s)
    · intro n hn
      unfold applyItmUpdate
      rw [applyOptInt_lookup_frame _ _ _ _ (fun _ => by decide),
          applyOptInt_lookup_frame _ _ _ _ (fun _ => by decide), hn]
      exact dictLookup_dictInsert_self _ "key" (.int n)
    · intro n hn
      unfold applyItmUpdate
      rw [applyOptInt_lookup_frame _ _ _ _ (fun _ => by decide), hn]
      exact dictLookup_dictInsert_self _ "rating" (.int n)
    · intro n hn
      unfold applyItmUpdate
      rw [hn]
      exact dictLookup_dictInsert_self _ "difficulty" (.int n)

/-- Witness for C7: patching only the rating of a mirror whose dictionary
holds an unrelated key leaves that key's value intact and sets the
rating. -/
theorem c7_mirror_patch_witness :
    ("custom" ∉ itmUpdatedKeys ⟨none, none, none, none, some 3, none⟩) ∧
    dictLookup [("title", PValue.str "Old"), ("custom", PValue.str "keep"),
        ("rating", PValue.int 3)] "custom" =
      dictLookup [("title", PValue.str "Old"),
        ("custom", PValue.str "keep")] "custom" ∧
    dictLookup [("title", PValue.str "Old"), ("custom", PValue.str "keep"),
        ("rating", PValue.int 3)] "rating" = some (.int 3) :=
  ⟨by decide,
   (c7_mirror_patch_overwrites_only_named_fields
      [("title", PValue.str "Old"), ("custom", PValue.str "keep")]
      [("title", PValue.str "Old"), ("custom", PValue.str "keep"),
       ("rating", PValue.int 3)]
      ⟨none, none, none, none, some 3, none⟩ true rfl).1
     "custom" (by decide),
   (c7_mirror_patch_overwrites_only_named_fields
      [("title", PValue.str "Old"), ("custom", PValue.str "keep")]
      [("title", PValue.str "Old"), ("custom", PValue.str "keep"),
       ("rating", PValue.int 3)]
      ⟨none, none, none, none, some 3, none⟩ true rfl).2.2.2.2.2.1
     3 rfl⟩

/-- C10: adding an item to a setlist whose mirror file does not exist
first creates a fresh mirror (title = the setlist name, empty items list,
default bookkeeping fields) and then appends the entry, reporting full
success (`add_item_to_setlist_file` + `create_setlist_file`,
`src/setlist_sync.rs`). -/
theorem c10_add_creates_missing_mirror (file : Option PValue) (name : String)
    (it : SetlistItem) (h : file = none) :
    add_item_to_setlist_file file name it =
      .ok (some (.dict
        [("title", .str name),
         ("items", .arr [.dict (itemEntryDict it)]),
         ("menuIndex", .int 0),
         ("kRecoverableDestination", .int 4),
         ("kRecoverablePaddedKeys",
           .arr [.str "items", .str "lastPlayed", .str "library",
                 .str "menuIndex", .str "title"])]), true) := by
  subst h
  rfl

/-- Witness for C10 at the spec's end-to-end scenario: adding the score at
`/a/b.pdf` to setlist "Recital" with no mirror file present. -/
theorem c10_add_creates_missing_mirror_witness :
    add_item_to_setlist_file none "Recital"
        ⟨"/a/b.pdf", "Sonata", "AAAA-1111", false, none, none⟩ =
      .ok (some (.dict
        [("title", .str "Recital"),
         ("items", .arr [.dict (itemEntryDict
            ⟨"/a/b.pdf", "Sonata", "AAAA-1111", false, none, none⟩)]),
         ("menuIndex", .int 0),
         ("kRecoverableDestination", .int 4),
         ("kRecoverablePaddedKeys",
           .arr [.str "items", .str "lastPlayed", .str "library",
                 .str "menuIndex", .str "title"])]), true) :=
  c10_add_creates_missing_mirror none "Recital"
    ⟨"/a/b.pdf", "Sonata", "AAAA-1111", false, none, none⟩ rfl

/-- Counterexample for C9: minting a genre row inserts into `ZMETA` but
leaves the `Z_PRIMARYKEY` allocator table untouched, and minting a
composer row updates the allocator entry with tag 9 (`entity::META`), not
the entry with the row's own tag 10 — so the allocator entry for the
inserted row's entity-tag is not updated to the new id in either case. -/
theorem c9_allocator_counterexample :
    (get_or_create_genre
        (⟨[], [], [], [], [], [], [(9, 0), (10, 0), (12, 0)]⟩ : DbState)
        "Jazz").1.meta = [⟨1, entityGENRE, 1, none, some "Jazz"⟩] ∧
    (get_or_create_genre
        (⟨[], [], [], [], [], [], [(9, 0), (10, 0), (12, 0)]⟩ : DbState)
        "Jazz").1.primaryKey = [(9, 0), (10, 0), (12, 0)] ∧
    (get_or_create_composer
        (⟨[], [], [], [], [], [], [(9, 0), (10, 0), (12, 0)]⟩ : DbState)
        "Bach").1.meta = [⟨1, entityCOMPOSER, 1, some "Bach", none⟩] ∧
    (get_or_create_composer
        (⟨[], [], [], [], [], [], [(9, 0), (10, 0), (12, 0)]⟩ : DbState)
        "Bach").1.primaryKey = [(9, 1), (10, 0), (12, 0)] := by
  refine ⟨rfl, rfl, rfl, rfl⟩

/-- C9 (amended): a genre mint never updates the allocator table; a
composer mint updates the allocator entry tagged `entity::META` (9) — not
the composer tag — to the newly allocated id, and a hit leaves the store
unchanged (`get_or_create_composer` / `get_or_create_genre`,
`src/models/meta.rs`). -/
theorem c9_allocator_amended (st : DbState) (name : String) :
    (get_or_create_genre st name).1.primaryKey = st.primaryKey ∧
    (st.meta.find? (fun m =>
        m.z_ent = entityCOMPOSER && m.zvalue = some name) = none →
      (get_or_create_composer st name).1.primaryKey =
        st.primaryKey.map (fun p =>
          if p.1 = entityMETA then (p.1, maxPk (st.meta.map (·.z_pk)) + 1)
          else p) ∧
      (get_or_create_composer st name).2 =
        maxPk (st.meta.map (·.z_pk)) + 1) ∧
    (∀ m, st.meta.find? (fun m =>
        m.z_ent = entityCOMPOSER && m.zvalue = some name) = some m →
      get_or_create_composer st name = (st, m.z_pk)) := by
  refine ⟨?_, ?_, ?_⟩
  · unfold get_or_create_genre
    cases st.meta.find? (fun m =>
        m.z_ent = entityGENRE && m.zvalue2 = some name) <;> rfl
  · intro hf
    unfold get_or_create_composer get_composer_by_name
    rw [hf]
    exact ⟨rfl, rfl⟩
  · intro m hf
    unfold get_or_create_composer get_composer_by_name
    rw [hf]

/-- Witness for C9 (amended): minting "Bach" into an empty store. -/
theorem c9_allocator_amended_witness :
    (get_or_create_composer
        (⟨[], [], [], [], [], [], [(9, 5), (10, 5), (12, 5)]⟩ : DbState)
        "Bach").1.primaryKey = [(9, 1), (10, 5), (12, 5)] ∧
    (get_or_create_composer
        (⟨[], [], [], [], [], [], [(9, 5), (10, 5), (12, 5)]⟩ : DbState)
        "Bach").2 = 1 := by
  have h := (c9_allocator_amended
    (⟨[], [], [], [], [], [], [(9, 5), (10, 5), (12, 5)]⟩ : DbState)
    "Bach").2.1 rfl
  exact ⟨h.1.trans (by decide), h.2.trans (by decide)⟩

/-- Counterexample for C8: when two mirror entries share the identity
token "X", removal-by-token drops both (the source uses `retain`), so the
list shrinks by two — neither "exactly one" nor "no match": the claim
fails.  Shown for setlist items and score bookmarks alike. -/
theorem c8_removal_counterexample :
    remove_item_from_setlist_file
        (some (.dict [("title", PValue.str "S"),
          ("items", PValue.arr [.dict [("Identifier", PValue.str "X")],
                                .dict [("Identifier", PValue.str "X")]])]))
        "X" =
      .ok (some (.dict [("title", PValue.str "S"),
        ("items", PValue.arr [])]), true) ∧
    delete_bookmark_from_itm
        (some (.dict [("bookmarks",
          PValue.arr [.dict [("Identifier", PValue.str "X")],
                      .dict [("Identifier", PValue.str "X")]])]))
        (some "X") =
      .ok (some (.dict [("bookmarks", PValue.arr [])]), true) ∧
    ([PValue.dict [("Identifier", PValue.str "X")],
      PValue.dict [("Identifier", PValue.str "X")]].countP
        (entryMatchesToken "X")) = 2 ∧
    ([] : List PValue).length ≠
      [PValue.dict [("Identifier", PValue.str "X")],
       PValue.dict [("Identifier", PValue.str "X")]].length - 1 :=
  ⟨rfl, rfl, rfl, by decide⟩

/-- The `retain` step removes exactly the matching entries: the kept list
is shorter by the number of matches. -/
theorem removeMatching_length (tok : String) (items : List PValue) :
    (removeMatching tok items).length =
      items.length - items.countP (entryMatchesToken tok) := by
  induction items with
  | nil => rfl
  | cons v vs ih =>
      have hle := List.countP_le_length (l := vs)
        (p := entryMatchesToken tok)
      cases hv : entryMatchesToken tok v with
      | true =>
          simp [removeMatching, List.filter_cons, hv,
            List.countP_cons] at ih ⊢
          omega
      | false =>
          simp [removeMatching, List.filter_cons, hv,
            List.countP_cons] at ih ⊢
          omega

/-- C8 (amended): removal-by-token removes every entry whose identity
token matches — the list shrinks by the number of matching entries — or
reports "no match" and removes nothing; in particular it shrinks by
exactly one whenever exactly one entry matches
(`remove_item_from_setlist_file`, `src/setlist_sync.rs`;
`delete_bookmark_from_itm`, `src/itm.rs`). -/
theorem c8_removal_amended (d db : List (String × PValue))
    (items bms : List PValue) (tok : String)
    (hi : dictLookup d "items" = some (.arr items))
    (hb : dictLookup db "bookmarks" = some (.arr bms)) :
    (removeMatching tok items).length =
      items.length - items.countP (entryMatchesToken tok) ∧
    (items.countP (entryMatchesToken tok) = 0 →
      remove_item_from_setlist_file (some (.dict d)) tok =
        .ok (some (.dict d), false)) ∧
    (items.countP (entryMatchesToken tok) ≠ 0 →
      remove_item_from_setlist_file (some (.dict d)) tok =
        .ok (some (.dict (dictInsert d "items"
          (.arr (removeMatching tok items)))), true)) ∧
    (items.countP (entryMatchesToken tok) = 1 →
      (removeMatching tok items).length = items.length - 1) ∧
    (bms.countP (entryMatchesToken tok) = 0 →
      delete_bookmark_from_itm (some (.dict db)) (some tok) =
        .ok (some (.dict db), false)) ∧
    (bms.countP (entryMatchesToken tok) ≠ 0 →
      delete_bookmark_from_itm (some (.dict db)) (some tok) =
        .ok (some (.dict (dictInsert db "bookmarks"
          (.arr (removeMatching tok bms)))), true)) := by
  have hcle := List.countP_le_length (l := items) (p := entryMatchesToken tok)
  have hlen := removeMatching_length tok items
  have hcleb := List.countP_le_length (l := bms) (p := entryMatchesToken tok)
  have hlenb := removeMatching_length tok bms
  refine ⟨hlen, ?_, ?_, ?_, ?_, ?_⟩
  · intro h0
    have heq : (removeMatching tok items).length = items.length := by omega
    simp only [remove_item_from_setlist_file, hi, heq, if_true]
  · intro h0
    have hne : ((removeMatching tok items).length = items.length) = False := by
      simp only [eq_iff_iff, iff_false]
      omega
    simp only [remove_item_from_setlist_file, hi, hne, if_false]
  · intro h1
    omega
  · intro h0
    have heq : (removeMatching tok bms).length = bms.length := by omega
    simp only [delete_bookmark_from_itm, hb, heq, if_true]
  · intro h0
    have hne : ((removeMatching tok bms).length = bms.length) = False := by
      simp only [eq_iff_iff, iff_false]
      omega
    simp only [delete_bookmark_from_itm, hb, hne, if_false]

/-- Witness for C8 (amended): removing token "X" from a one-entry items
list and a one-entry bookmarks list drops exactly that entry. -/
theorem c8_removal_amended_witness :
    remove_item_from_setlist_file
        (some (.dict [("items",
          PValue.arr [.dict [("Identifier", PValue.str "X")]])])) "X" =
      .ok (some (.dict [("items", PValue.arr
        (removeMatching "X" [.dict [("Identifier", PValue.str "X")]]))]),
        true) ∧
    (removeMatching "X"
      [PValue.dict [("Identifier", PValue.str "X")]]).length =
      [PValue.dict [("Identifier", PValue.str "X")]].length - 1 := by
  have h := c8_removal_amended
    [("items", PValue.arr [.dict [("Identifier", PValue.str "X")]])]
    [("bookmarks", PValue.arr [.dict [("Identifier", PValue.str "X")]])]
    [.dict [("Identifier", PValue.str "X")]]
    [.dict [("Identifier", PValue.str "X")]]
    "X" rfl rfl
  exact ⟨(h.2.2.1 (by decide)).trans (by rfl), h.2.2.2.1 rfl⟩

/-- C1 (code bug): reordering setlist 1 = [item 10 (token "AAAA"),
item 11 (token "CCCC")] by moving item 10 to position 2 re-inserts both
link rows with freshly minted tokens ("FRESH0"/"FRESH1") — and writes the
item id, not the entity-tag, into `Z4_ITEM` — so the mirror items list
rebuilt from the store carries new identity tokens for every member,
violating the claimed token preservation
(`reorder_score_in_setlist`, `src/models/setlist.rs` lines 235-284). -/
theorem c1_reorder_mints_fresh_tokens :
    reorder_score_in_setlist
        [⟨1, 2, 1, 1, 10, 6, 0, some "AAAA"⟩,
         ⟨2, 2, 1, 1, 11, 6, 0, some "CCCC"⟩] 1 10 2
        (fun i => "FRESH" ++ toString i) =
      .ok [⟨3, 2, 1, 1, 11, 11, 0, some "FRESH0"⟩,
           ⟨4, 2, 1, 1, 10, 10, 0, some "FRESH1"⟩] ∧
    mirrorItemsForSetlist
        [⟨1, 2, 1, 1, 10, 6, 0, some "AAAA"⟩,
         ⟨2, 2, 1, 1, 11, 6, 0, some "CCCC"⟩]
        [⟨10, 6, "/a.pdf", "Alpha", none, none, none, none, none, none,
          none, none, 1⟩,
         ⟨11, 6, "/b.pdf", "Beta", none, none, none, none, none, none,
          none, none, 1⟩] 1 =
      [⟨"/a.pdf", "Alpha", "AAAA", false, none, none⟩,
       ⟨"/b.pdf", "Beta", "CCCC", false, none, none⟩] ∧
    mirrorItemsForSetlist
        [⟨3, 2, 1, 1, 11, 11, 0, some "FRESH0"⟩,
         ⟨4, 2, 1, 1, 10, 10, 0, some "FRESH1"⟩]
        [⟨10, 6, "/a.pdf", "Alpha", none, none, none, none, none, none,
          none, none, 1⟩,
         ⟨11, 6, "/b.pdf", "Beta", none, none, none, none, none, none,
          none, none, 1⟩] 1 =
      [⟨"/b.pdf", "Beta", "FRESH0", false, none, none⟩,
       ⟨"/a.pdf", "Alpha", "FRESH1", false, none, none⟩] ∧
    ("FRESH1" : String) ≠ "AAAA" ∧ ("FRESH0" : String) ≠ "CCCC" :=
  ⟨rfl, rfl, rfl, by decide, by decide⟩

/-- Counterexample for C2: merging composer 5 into 7 with a failure at the
second statement (the `DELETE` of the source row, after the relink
`UPDATE` committed) leaves the relational store half-updated — the link
row already points at the target while the source row still exists — so
the effects of the first statement persist even though the sequence
failed; a transactional run would have left the store unchanged. -/
theorem c2_merge_not_atomic_counterexample :
    (runAutocommit (mergeComposersStmts 5 7) 1
        (⟨[], [], [], [⟨5, 10, 1, some "J Bach", none⟩,
           ⟨7, 10, 1, some "Johann Bach", none⟩], [(1, 5)], [], []⟩ :
          DbState)).2 = false ∧
    (runAutocommit (mergeComposersStmts 5 7) 1
        (⟨[], [], [], [⟨5, 10, 1, some "J Bach", none⟩,
           ⟨7, 10, 1, some "Johann Bach", none⟩], [(1, 5)], [], []⟩ :
          DbState)).1 ≠
      (⟨[], [], [], [⟨5, 10, 1, some "J Bach", none⟩,
         ⟨7, 10, 1, some "Johann Bach", none⟩], [(1, 5)], [], []⟩ :
        DbState) ∧
    (runAutocommit (mergeComposersStmts 5 7) 1
        (⟨[], [], [], [⟨5, 10, 1, some "J Bach", none⟩,
           ⟨7, 10, 1, some "Johann Bach", none⟩], [(1, 5)], [], []⟩ :
          DbState)).1.composersLink = [(1, 7)] ∧
    (runTransactional (mergeComposersStmts 5 7) 1
        (⟨[], [], [], [⟨5, 10, 1, some "J Bach", none⟩,
           ⟨7, 10, 1, some "Johann Bach", none⟩], [(1, 5)], [], []⟩ :
          DbState)).1 =
      (⟨[], [], [], [⟨5, 10, 1, some "J Bach", none⟩,
         ⟨7, 10, 1, some "Johann Bach", none⟩], [(1, 5)], [], []⟩ :
        DbState) :=
  ⟨rfl, by decide, rfl, rfl⟩

/-- Autocommit execution equals running exactly the statements before the
failing index (and succeeds iff no statement is left to fail). -/
theorem runAutocommit_eq (stmts : List (DbState → DbState)) (k : Nat)
    (st : DbState) :
    runAutocommit stmts k st =
      (applySeq (stmts.take k) st, decide (stmts.length ≤ k)) := by
  induction stmts generalizing k st with
  | nil => simp [runAutocommit, applySeq]
  | cons s rest ih =>
      cases k with
      | zero => simp [runAutocommit, applySeq]
      | succ k => simp [runAutocommit, applySeq, ih, Nat.succ_le_succ_iff]

/-- C2 (amended): the relational statement sequences of composer merge and
composer replacement are not wrapped in a transaction — each statement
commits on its own, so a failure at statement k leaves exactly the effects
of statements 0..k-1 in the store (and the run succeeds iff no statement
fails) (`merge_composers`, `src/models/meta.rs`;
`src/commands/scores.rs` lines 214-258). -/
theorem c2_multi_statement_prefix_persists (src tgt sc cid now : Int)
    (k : Nat) (st : DbState) :
    (runAutocommit (mergeComposersStmts src tgt) k st).1 =
      applySeq ((mergeComposersStmts src tgt).take k) st ∧
    ((runAutocommit (mergeComposersStmts src tgt) k st).2 = true ↔
      (mergeComposersStmts src tgt).length ≤ k) ∧
    (runAutocommit (replaceComposerStmts sc cid now) k st).1 =
      applySeq ((replaceComposerStmts sc cid now).take k) st ∧
    ((runAutocommit (replaceComposerStmts sc cid now) k st).2 = true ↔
      (replaceComposerStmts sc cid now).length ≤ k) := by
  refine ⟨?_, ?_, ?_, ?_⟩ <;> simp [runAutocommit_eq]

/-- C4: adding an item to a setlist is a no-op when a (setlist, item) link
row already exists; otherwise one link row is appended whose token is an
identity token the item already carries in some other membership link row
when one exists, and the freshly minted token only when no link row of the
item carries a token (`add_score_to_setlist`, `src/models/setlist.rs`
lines 187-223). -/
theorem c4_add_reuses_existing_token (cylon : List CylonRow)
    (sl sc : Int) (fresh : String) :
    ((∃ r ∈ cylon, r.zsetlist = sl ∧ r.zitem = sc) →
      add_score_to_setlist cylon sl sc fresh = cylon) ∧
    ((¬ ∃ r ∈ cylon, r.zsetlist = sl ∧ r.zitem = sc) →
      ∃ u, add_score_to_setlist cylon sl sc fresh =
          cylon ++ [⟨maxPk (cylon.map (·.z_pk)) + 1, 2, 1, sl, sc,
                     entitySCORE, 0, some u⟩] ∧
        ((∃ r ∈ cylon, r.zitem = sc ∧ r.zuuid = some u) ∨
         ((∀ r ∈ cylon, r.zitem = sc → r.zuuid = none) ∧ u = fresh))) := by
  have hany : cylon.any (fun r => r.zsetlist = sl && r.zitem = sc) = true ↔
      ∃ r ∈ cylon, r.zsetlist = sl ∧ r.zitem = sc := by
    simp [List.any_eq_true]
  constructor
  · intro hex
    simp only [add_score_to_setlist, hany.mpr hex, if_true]
  · intro hnex
    have hb : ¬ cylon.any (fun r => r.zsetlist = sl && r.zitem = sc) = true :=
      fun h => hnex (hany.mp h)
    cases hf : cylon.find? (fun r => r.zitem = sc && r.zuuid.isSome) with
    | some r =>
        have hmem := List.mem_of_find?_eq_some hf
        have hpred := List.find?_some hf
        simp only [Bool.and_eq_true, decide_eq_true_eq,
          Option.isSome_iff_exists] at hpred
        obtain ⟨hit, u, hu⟩ := hpred
        refine ⟨u, ?_, Or.inl ⟨r, hmem, hit, hu⟩⟩
        simp only [add_score_to_setlist, hb, if_false, hf, hu, Option.getD,
          Bool.false_eq_true]
    | none =>
        have hall := List.find?_eq_none.mp hf
        refine ⟨fresh, ?_, Or.inr ⟨?_, rfl⟩⟩
        · simp only [add_score_to_setlist, hb, if_false, hf, Option.getD,
            Bool.false_eq_true]
        · intro r hr hit
          have := hall r hr
          simp only [Bool.and_eq_true, decide_eq_true_eq, not_and,
            Option.isSome_iff_exists, not_exists] at this
          cases hz : r.zuuid with
          | none => rfl
          | some v => exact absurd hz (this hit v)

/-- Witness for C4: item 10 already linked to setlist 2 with token "AAAA";
adding it to setlist 1 reuses that token rather than minting "F". -/
theorem c4_add_reuses_existing_token_witness :
    (¬ ∃ r ∈ [(⟨1, 2, 1, 2, 10, 6, 0, some "AAAA"⟩ : CylonRow)],
        r.zsetlist = 1 ∧ r.zitem = 10) ∧
    ∃ u, add_score_to_setlist [⟨1, 2, 1, 2, 10, 6, 0, some "AAAA"⟩]
          1 10 "F" =
        [⟨1, 2, 1, 2, 10, 6, 0, some "AAAA"⟩] ++
          [⟨maxPk ([(⟨1, 2, 1, 2, 10, 6, 0, some "AAAA"⟩ : CylonRow)].map
              (·.z_pk)) + 1, 2, 1, 1, 10, entitySCORE, 0, some u⟩] ∧
      ((∃ r ∈ [(⟨1, 2, 1, 2, 10, 6, 0, some "AAAA"⟩ : CylonRow)],
          r.zitem = 10 ∧ r.zuuid = some u) ∨
       ((∀ r ∈ [(⟨1, 2, 1, 2, 10, 6, 0, some "AAAA"⟩ : CylonRow)],
          r.zitem = 10 → r.zuuid = none) ∧ u = "F")) :=
  ⟨by decide,
   (c4_add_reuses_existing_token [⟨1, 2, 1, 2, 10, 6, 0, some "AAAA"⟩]
      1 10 "F").2 (by decide)⟩

/-- C5: identifier resolution tries, in strict order and stopping at the
first success, (1) integer primary-key lookup, (2) exact natural-key match
(file path for scores, name for setlists), (3) exact then ASCII-case-
insensitive title/name match, (4) substring match (ambiguous at two or
more hits) — in particular an identifier that parses as the integer id of
an existing entity resolves to that entity regardless of any title
matches (`resolve_score`, `src/models/score.rs` lines 301-316;
`resolve_setlist`, `src/models/setlist.rs` lines 123-130). -/
theorem c5_resolver_order (items : List ItemRow)
    (setlists : List SetlistRow) (ident : String) (id : Int) (r : ItemRow)
    (s : SetlistRow) (r' : ItemRow) (x y : ItemRow) :
    (parseI64 ident = some id → get_score_by_id items id = .ok r →
      resolve_score items ident = .ok r) ∧
    (parseI64 ident = some id → get_setlist_by_id setlists id = .ok s →
      resolve_setlist setlists ident = .ok s) ∧
    (parseI64 ident = none → get_score_by_path items ident = some r' →
      resolve_score items ident = .ok r') ∧
    (parseI64 ident = some id →
      get_score_by_id items id = .error (.scoreNotFound (toString id)) →
      get_score_by_path items ident = some r' →
      resolve_score items ident = .ok r') ∧
    (parseI64 ident = none → get_score_by_path items ident = none →
      resolve_score items ident = get_score_by_title items ident) ∧
    (parseI64 ident = none →
      resolve_setlist setlists ident = get_setlist_by_name setlists ident) ∧
    (items.find? (fun t => t.ztitle = ident && t.z_ent = entitySCORE) =
        some r' → get_score_by_title items ident = .ok r') ∧
    (items.find? (fun t => t.ztitle = ident && t.z_ent = entitySCORE) =
        none →
      items.find? (fun t =>
        lowerStr t.ztitle = lowerStr ident && t.z_ent = entitySCORE) =
        some r' →
      get_score_by_title items ident = .ok r') ∧
    (items.find? (fun t => t.ztitle = ident && t.z_ent = entitySCORE) =
        none →
      items.find? (fun t =>
        lowerStr t.ztitle = lowerStr ident && t.z_ent = entitySCORE) =
        none →
      (items.filter (fun t =>
        likeContains t.ztitle ident && t.z_ent = entitySCORE)).take 2 =
        [x, y] →
      get_score_by_title items ident = .error (.ambiguousIdentifier ident)) := by
  refine ⟨?_, ?_, ?_, ?_, ?_, ?_, ?_, ?_, ?_⟩
  · intro hp hid
    simp only [resolve_score, hp, hid]
  · intro hp hid
    simp only [resolve_setlist, hp, hid]
  · intro hp hpath
    simp only [resolve_score, hp, hpath]
  · intro hp hid hpath
    simp only [resolve_score, hp, hid, hpath]
  · intro hp hpath
    simp only [resolve_score, hp, hpath]
  · intro hp
    simp only [resolve_setlist, hp]
  · intro hx
    simp only [get_score_by_title, hx]
  · intro hx hci
    simp only [get_score_by_title, hx, hci]
  · intro hx hci htake
    simp only [get_score_by_title, hx, hci, htake]

/-- Witness for C5: "12" is both the primary key of an existing score and
a substring of another score's title; resolution returns the id-matched
score. -/
theorem c5_resolver_order_witness :
    parseI64 "12" = some 12 ∧
    likeContains "Sonata 12 in C" "12" = true ∧
    get_score_by_id
        [⟨12, 6, "/x.pdf", "Study", none, none, none, none, none, none,
          none, none, 1⟩,
         ⟨1, 6, "/s.pdf", "Sonata 12 in C", none, none, none, none, none,
          none, none, none, 1⟩] 12 =
      .ok ⟨12, 6, "/x.pdf", "Study", none, none, none, none, none, none,
        none, none, 1⟩ ∧
    resolve_score
        [⟨12, 6, "/x.pdf", "Study", none, none, none, none, none, none,
          none, none, 1⟩,
         ⟨1, 6, "/s.pdf", "Sonata 12 in C", none, none, none, none, none,
          none, none, none, 1⟩] "12" =
      .ok ⟨12, 6, "/x.pdf", "Study", none, none, none, none, none, none,
        none, none, 1⟩ :=
  ⟨rfl, rfl, rfl,
   (c5_resolver_order
      [⟨12, 6, "/x.pdf", "Study", none, none, none, none, none, none,
        none, none, 1⟩,
       ⟨1, 6, "/s.pdf", "Sonata 12 in C", none, none, none, none, none,
        none, none, none, 1⟩] [] "12" 12
      ⟨12, 6, "/x.pdf", "Study", none, none, none, none, none, none,
        none, none, 1⟩
      ⟨0, 0, 0, "", none⟩
      ⟨12, 6, "/x.pdf", "Study", none, none, none, none, none, none,
        none, none, 1⟩
      ⟨12, 6, "/x.pdf", "Study", none, none, none, none, none, none,
        none, none, 1⟩
      ⟨12, 6, "/x.pdf", "Study", none, none, none, none, none, none,
        none, none, 1⟩).1 rfl rfl⟩

/-- Every note token the parser accepts canonicalizes, per the spec table,
to the sharp spelling of the (note, sharp) pair the parser returns. -/
theorem parseNote_canonical (t : String) (n sh : Int)
    (h : parseNote t = some (n, sh)) :
    ((n = 1 ∧ sh = 0) ∧ spec_canonical_note t = some "C") ∨
    ((n = 1 ∧ sh = 1) ∧ spec_canonical_note t = some "C#") ∨
    ((n = 2 ∧ sh = 0) ∧ spec_canonical_note t = some "D") ∨
    ((n = 2 ∧ sh = 1) ∧ spec_canonical_note t = some "D#") ∨
    ((n = 3 ∧ sh = 0) ∧ spec_canonical_note t = some "E") ∨
    ((n = 4 ∧ sh = 0) ∧ spec_canonical_note t = some "F") ∨
    ((n = 4 ∧ sh = 1) ∧ spec_canonical_note t = some "F#") ∨
    ((n = 5 ∧ sh = 0) ∧ spec_canonical_note t = some "G") ∨
    ((n = 5 ∧ sh = 1) ∧ spec_canonical_note t = some "G#") ∨
    ((n = 6 ∧ sh = 0) ∧ spec_canonical_note t = some "A") ∨
    ((n = 6 ∧ sh = 1) ∧ spec_canonical_note t = some "A#") ∨
    ((n = 7 ∧ sh = 0) ∧ spec_canonical_note t = some "B") := by
  simp only [parseNote] at h
  simp only [spec_canonical_note]
  by_cases h1 : upperStr t = "C"
  · rw [if_pos h1] at h ⊢
    injection h with hp
    injection hp with hn hs
    subst hn
    subst hs
    exact Or.inl (⟨⟨rfl, rfl⟩, rfl⟩)
  · rw [if_neg h1] at h ⊢
    by_cases h2 : upperStr t = "C#" ∨ upperStr t = "C♯" ∨ upperStr t = "DB" ∨ upperStr t = "D♭"
    · rw [if_pos h2] at h ⊢
      injection h with hp
      injection hp with hn hs
      subst hn
      subst hs
      exact Or.inr (Or.inl (⟨⟨rfl, rfl⟩, rfl⟩))
    · rw [if_neg h2] at h ⊢
      by_cases h3 : upperStr t = "D"
      · rw [if_pos h3] at h ⊢
        injection h with hp
        injection hp with hn hs
        subst hn
        subst hs
        exact Or.inr (Or.inr (Or.inl (⟨⟨rfl, rfl⟩, rfl⟩)))
      · rw [if_neg h3] at h ⊢
        by_cases h4 : upperStr t = "D#" ∨ upperStr t = "D♯" ∨ upperStr t = "EB" ∨ upperStr t = "E♭"
        · rw [if_pos h4] at h ⊢
          injection h with hp
          injection hp with hn hs
          subst hn
          subst hs
          exact Or.inr (Or.inr (Or.inr (Or.inl (⟨⟨rfl, rfl⟩, rfl⟩))))
        · rw [if_neg h4] at h ⊢
          by_cases h5 : upperStr t = "E"
          · rw [if_pos h5] at h ⊢
            injection h with hp
            injection hp with hn hs
            subst hn
            subst hs
            exact Or.inr (Or.inr (Or.inr (Or.inr (Or.inl (⟨⟨rfl, rfl⟩, rfl⟩)))))
          · rw [if_neg h5] at h ⊢
            by_cases h6 : upperStr t = "F"
            · rw [if_pos h6] at h ⊢
              injection h with hp
              injection hp with hn hs
              subst hn
              subst hs
              exact Or.inr (Or.inr (Or.inr (Or.inr (Or.inr (Or.inl (⟨⟨rfl, rfl⟩, rfl⟩))))))
            · rw [if_neg h6] at h ⊢
              by_cases h7 : upperStr t = "F#" ∨ upperStr t = "F♯" ∨ upperStr t = "GB" ∨ upperStr t = "G♭"
              · rw [if_pos h7] at h ⊢
                injection h with hp
                injection hp with hn hs
                subst hn
                subst hs
                exact Or.inr (Or.inr (Or.inr (Or.inr (Or.inr (Or.inr (Or.inl (⟨⟨rfl, rfl⟩, rfl⟩)))))))
              · rw [if_neg h7] at h ⊢
                by_cases h8 : upperStr t = "G"
                · rw [if_pos h8] at h ⊢
                  injection h with hp
                  injection hp with hn hs
                  subst hn
                  subst hs
                  exact Or.inr (Or.inr (Or.inr (Or.inr (Or.inr (Or.inr (Or.inr (Or.inl (⟨⟨rfl, rfl⟩, rfl⟩))))))))
                · rw [if_neg h8] at h ⊢
                  by_cases h9 : upperStr t = "G#" ∨ upperStr t = "G♯" ∨ upperStr t = "AB" ∨ upperStr t = "A♭"
                  · rw [if_pos h9] at h ⊢
                    injection h with hp
                    injection hp with hn hs
                    subst hn
                    subst hs
                    exact Or.inr (Or.inr (Or.inr (Or.inr (Or.inr (Or.inr (Or.inr (Or.inr (Or.inl (⟨⟨rfl, rfl⟩, rfl⟩)))))))))
                  · rw [if_neg h9] at h ⊢
                    by_cases h10 : upperStr t = "A"
                    · rw [if_pos h10] at h ⊢
                      injection h with hp
                      injection hp with hn hs
                      subst hn
                      subst hs
                      exact Or.inr (Or.inr (Or.inr (Or.inr (Or.inr (Or.inr (Or.inr (Or.inr (Or.inr (Or.inl (⟨⟨rfl, rfl⟩, rfl⟩))))))))))
                    · rw [if_neg h10] at h ⊢
                      by_cases h11 : upperStr t = "A#" ∨ upperStr t = "A♯" ∨ upperStr t = "BB" ∨ upperStr t = "B♭"
                      · rw [if_pos h11] at h ⊢
                        injection h with hp
                        injection hp with hn hs
                        subst hn
                        subst hs
                        exact Or.inr (Or.inr (Or.inr (Or.inr (Or.inr (Or.inr (Or.inr (Or.inr (Or.inr (Or.inr (Or.inl (⟨⟨rfl, rfl⟩, rfl⟩)))))))))))
                      · rw [if_neg h11] at h ⊢
                        by_cases h12 : upperStr t = "B"
                        · rw [if_pos h12] at h ⊢
                          injection h with hp
                          injection hp with hn hs
                          subst hn
                          subst hs
                          exact Or.inr (Or.inr (Or.inr (Or.inr (Or.inr (Or.inr (Or.inr (Or.inr (Or.inr (Or.inr (Or.inr (⟨⟨rfl, rfl⟩, rfl⟩)))))))))))
                        · rw [if_neg h12] at h ⊢
                          exact Option.noConfusion h

/-- Every mode token the parser accepts canonicalizes, per the spec table,
to the full mode name of the mode number the parser returns. -/
theorem parseMode_canonical (t : String) (m : Int)
    (h : parseMode t = some m) :
    (m = 0 ∧ spec_canonical_mode t = some "Major") ∨
    (m = 1 ∧ spec_canonical_mode t = some "Minor") := by
  simp only [parseMode] at h
  simp only [spec_canonical_mode]
  by_cases h1 : lowerStr t = "major" ∨ lowerStr t = "maj"
  · rw [if_pos h1] at h ⊢
    injection h with hm
    subst hm
    exact Or.inl ⟨rfl, rfl⟩
  · rw [if_neg h1] at h ⊢
    by_cases h2 : lowerStr t = "minor" ∨ lowerStr t = "min"
    · rw [if_pos h2] at h ⊢
      injection h with hm
      subst hm
      exact Or.inr ⟨rfl, rfl⟩
    · rw [if_neg h2] at h ⊢
      exact Option.noConfusion h

/-- Inverting the final decode step of `MusicalKey.from_string`. -/
theorem from_string_code_inv (c : Int) (k : MusicalKey) (t : String)
    (h : (match MusicalKey.from_code c with
          | some k' => Except.ok k'
          | none => Except.error t) = Except.ok k) :
    MusicalKey.from_code c = some k := by
  cases hc : MusicalKey.from_code c with
  | none => rw [hc] at h; exact Except.noConfusion h
  | some k' =>
      rw [hc] at h
      injection h with h'
      rw [h']

/-- The decoder stores the decoded code in the key it returns. -/
theorem from_code_code (c : Int) (k : MusicalKey)
    (h : MusicalKey.from_code c = some k) : k.code = c := by
  simp only [MusicalKey.from_code] at h
  split at h
  · exact Option.noConfusion h
  · split at h
    · exact Option.noConfusion h
    · injection h with h'
      rw [← h']

/-- C6: for every valid key string (a two-token note+mode description in
any letter case), decoding the code produced by encoding it yields the
key back, and that key carries the canonical sharp-equivalent note
spelling and the full Major/Minor mode name of the input tokens
(`MusicalKey::from_string` / `MusicalKey::from_code`,
`src/models/key.rs`). -/
theorem c6_key_codec_round_trip (s : String) (k : MusicalKey)
    (h : MusicalKey.from_string s = .ok k) :
    MusicalKey.from_code k.code = some k ∧
    ∃ n m, wordsOf (trimStr s) = [n, m] ∧
      spec_canonical_note n = some k.note ∧
      spec_canonical_mode m = some k.mode := by
  simp only [MusicalKey.from_string] at h
  split at h
  next noteStr modeStr heqw =>
    split at h
    next n sh m heqn heqm =>
      obtain ⟨kc, kn, km⟩ := k
      have hfc := from_string_code_inv _ _ _ h
      have hkc := from_code_code _ _ hfc
      refine ⟨?_, noteStr, modeStr, heqw, ?_⟩
      · rw [hkc]
        exact hfc
      · rcases parseNote_canonical _ _ _ heqn with
          ⟨⟨rfl, rfl⟩, hcn⟩ | ⟨⟨rfl, rfl⟩, hcn⟩ | ⟨⟨rfl, rfl⟩, hcn⟩ |
          ⟨⟨rfl, rfl⟩, hcn⟩ | ⟨⟨rfl, rfl⟩, hcn⟩ | ⟨⟨rfl, rfl⟩, hcn⟩ |
          ⟨⟨rfl, rfl⟩, hcn⟩ | ⟨⟨rfl, rfl⟩, hcn⟩ | ⟨⟨rfl, rfl⟩, hcn⟩ |
          ⟨⟨rfl, rfl⟩, hcn⟩ | ⟨⟨rfl, rfl⟩, hcn⟩ | ⟨⟨rfl, rfl⟩, hcn⟩ <;>
        rcases parseMode_canonical _ _ heqm with ⟨rfl, hcm⟩ | ⟨rfl, hcm⟩ <;>
        · rw [hcn, hcm]
          simp [MusicalKey.from_code] at hfc
          obtain ⟨rfl, rfl, rfl⟩ := hfc
          exact ⟨rfl, rfl⟩
    next => exact Except.noConfusion h
  next => exact Except.noConfusion h

/-- Witness for C6 at the spec's flat/sharp example: "Db Major" encodes to
code 110 and decodes back to the canonical "C# Major". -/
theorem c6_key_codec_round_trip_witness :
    MusicalKey.from_string "Db Major" = .ok ⟨110, "C#", "Major"⟩ ∧
    (MusicalKey.from_code (⟨110, "C#", "Major"⟩ : MusicalKey).code =
        some ⟨110, "C#", "Major"⟩ ∧
     ∃ n m, wordsOf (trimStr "Db Major") = [n, m] ∧
       spec_canonical_note n =
         some (⟨110, "C#", "Major"⟩ : MusicalKey).note ∧
       spec_canonical_mode m =
         some (⟨110, "C#", "Major"⟩ : MusicalKey).mode) :=
  ⟨rfl, c6_key_codec_round_trip "Db Major" ⟨110, "C#", "Major"⟩ rfl⟩

/-- Counterexample for C3: an edit request carrying both a new title and
rating 7 fails with `InvalidRating` — but the title update has already
been written to the relational store before the rating is validated, so
the store is not unchanged (`src/commands/scores.rs` lines 138-185: the
title block's `conn.execute` precedes the rating bounds check). -/
theorem c3_invalid_rating_counterexample :
    (scoresEditHandle
        (⟨[⟨1, 6, "/a.pdf", "Old", none, none, none, none, none, none,
            none, none, 1⟩], [], [], [], [], [], []⟩ : DbState)
        (some (PValue.dict [("title", PValue.str "Old")]))
        ⟨"1", some "New", none, none, none, some 7, none, false⟩ 99).err =
      some (.invalidRating 7) ∧
    (scoresEditHandle
        (⟨[⟨1, 6, "/a.pdf", "Old", none, none, none, none, none, none,
            none, none, 1⟩], [], [], [], [], [], []⟩ : DbState)
        (some (PValue.dict [("title", PValue.str "Old")]))
        ⟨"1", some "New", none, none, none, some 7, none, false⟩ 99).db ≠
      (⟨[⟨1, 6, "/a.pdf", "Old", none, none, none, none, none, none,
          none, none, 1⟩], [], [], [], [], [], []⟩ : DbState) ∧
    (scoresEditHandle
        (⟨[⟨1, 6, "/a.pdf", "Old", none, none, none, none, none, none,
            none, none, 1⟩], [], [], [], [], [], []⟩ : DbState)
        (some (PValue.dict [("title", PValue.str "Old")]))
        ⟨"1", some "New", none, none, none, some 7, none, false⟩ 99).db.items =
      [⟨1, 6, "/a.pdf", "New", some "new", none, none, none, none, none,
        none, none, 1⟩] :=
  ⟨rfl, by decide, rfl⟩

/-- C3 (amended): an out-of-bounds rating/difficulty makes the edit
command fail with `InvalidRating`/`InvalidDifficulty` before the
rating/difficulty write and before any mirror write — the mirror is
always unchanged, and the relational store is unchanged when the request
carries no field handled earlier in the handler's sequence (title, key;
plus rating for the difficulty case); writes of those earlier fields have
already been applied when they are present
(`src/commands/scores.rs` lines 111-282). -/
theorem c3_bounds_reject_before_write (st : DbState)
    (mirror : Option PValue) (ident : String) (tit comp gen : Option String)
    (key : Option String) (rat diff : Option Int) (now : Int) (sc : ItemRow)
    (hres : resolve_score st.items ident = .ok sc)
    (hkey : ∀ ks, key = some ks →
      ∃ mk, MusicalKey.from_string ks = .ok mk) :
    (∀ rv, rat = some rv → (rv < 1 ∨ 6 < rv) →
      (scoresEditHandle st mirror
          ⟨ident, tit, comp, gen, key, rat, diff, false⟩ now).err =
        some (.invalidRating rv) ∧
      (scoresEditHandle st mirror
          ⟨ident, tit, comp, gen, key, rat, diff, false⟩ now).mirror =
        mirror ∧
      (tit = none → key = none →
        (scoresEditHandle st mirror
            ⟨ident, tit, comp, gen, key, rat, diff, false⟩ now).db = st)) ∧
    (∀ dv, diff = some dv → (dv < 1 ∨ 5 < dv) →
      (rat = none ∨ ∃ rv, rat = some rv ∧ ¬(rv < 1 ∨ 6 < rv)) →
      (scoresEditHandle st mirror
          ⟨ident, tit, comp, gen, key, rat, diff, false⟩ now).err =
        some (.invalidDifficulty dv) ∧
      (scoresEditHandle st mirror
          ⟨ident, tit, comp, gen, key, rat, diff, false⟩ now).mirror =
        mirror ∧
      (tit = none → key = none → rat = none →
        (scoresEditHandle st mirror
            ⟨ident, tit, comp, gen, key, rat, diff, false⟩ now).db = st)) := by
  constructor
  · intro rv hrv hbad
    subst hrv
    cases tit with
    | none =>
      cases key with
      | none =>
        have hrel : editRelational st sc.z_pk
            ⟨ident, none, comp, gen, none, some rv, diff, false⟩ now =
            .error (st, .invalidRating rv) := by
          simp [editRelational, hbad]
        simp [scoresEditHandle, hres, hrel]
      | some ks =>
        obtain ⟨mk, hmk⟩ := hkey ks rfl
        have hrel : editRelational st sc.z_pk
            ⟨ident, none, comp, gen, some ks, some rv, diff, false⟩ now =
            .error (updateKey sc.z_pk mk.code st, .invalidRating rv) := by
          simp [editRelational, hmk, hbad]
        simp [scoresEditHandle, hres, hrel]
    | some t =>
      cases key with
      | none =>
        have hrel : editRelational st sc.z_pk
            ⟨ident, some t, comp, gen, none, some rv, diff, false⟩ now =
            .error (updateTitle sc.z_pk t st, .invalidRating rv) := by
          simp [editRelational, hbad]
        simp [scoresEditHandle, hres, hrel]
      | some ks =>
        obtain ⟨mk, hmk⟩ := hkey ks rfl
        have hrel : editRelational st sc.z_pk
            ⟨ident, some t, comp, gen, some ks, some rv, diff, false⟩ now =
            .error (updateKey sc.z_pk mk.code (updateTitle sc.z_pk t st),
              .invalidRating rv) := by
          simp [editRelational, hmk, hbad]
        simp [scoresEditHandle, hres, hrel]
  · intro dv hdv hbad hrat
    subst hdv
    have hratcases : rat = none ∨
        ∃ rv, rat = some rv ∧ ¬(rv < 1 ∨ 6 < rv) := hrat
    rcases hratcases with hrn | ⟨rv, hrv, hrok⟩
    · subst hrn
      cases tit with
      | none =>
        cases key with
        | none =>
          have hrel : editRelational st sc.z_pk
              ⟨ident, none, comp, gen, none, none, some dv, false⟩ now =
              .error (st, .invalidDifficulty dv) := by
            simp [editRelational, hbad]
          simp [scoresEditHandle, hres, hrel]
        | some ks =>
          obtain ⟨mk, hmk⟩ := hkey ks rfl
          have hrel : editRelational st sc.z_pk
              ⟨ident, none, comp, gen, some ks, none, some dv, false⟩ now =
              .error (updateKey sc.z_pk mk.code st, .invalidDifficulty dv) := by
            simp [editRelational, hmk, hbad]
          simp [scoresEditHandle, hres, hrel]
      | some t =>
        cases key with
        | none =>
          have hrel : editRelational st sc.z_pk
              ⟨ident, some t, comp, gen, none, none, some dv, false⟩ now =
              .error (updateTitle sc.z_pk t st, .invalidDifficulty dv) := by
            simp [editRelational, hbad]
          simp [scoresEditHandle, hres, hrel]
        | some ks =>
          obtain ⟨mk, hmk⟩ := hkey ks rfl
          have hrel : editRelational st sc.z_pk
              ⟨ident, some t, comp, gen, some ks, none, some dv, false⟩ now =
              .error (updateKey sc.z_pk mk.code (updateTitle sc.z_pk t st),
                .invalidDifficulty dv) := by
            simp [editRelational, hmk, hbad]
          simp [scoresEditHandle, hres, hrel]
    · subst hrv
      cases tit with
      | none =>
        cases key with
        | none =>
          have hrel : editRelational st sc.z_pk
              ⟨ident, none, comp, gen, none, some rv, some dv, false⟩ now =
              .error (updateRating sc.z_pk rv st, .invalidDifficulty dv) := by
            simp [editRelational, hbad, hrok]
          simp [scoresEditHandle, hres, hrel]
        | some ks =>
          obtain ⟨mk, hmk⟩ := hkey ks rfl
          have hrel : editRelational st sc.z_pk
              ⟨ident, none, comp, gen, some ks, some rv, some dv, false⟩
              now = .error (updateRating sc.z_pk rv
                (updateKey sc.z_pk mk.code st), .invalidDifficulty dv) := by
            simp [editRelational, hmk, hbad, hrok]
          simp [scoresEditHandle, hres, hrel]
      | some t =>
        cases key with
        | none =>
          have hrel : editRelational st sc.z_pk
              ⟨ident, some t, comp, gen, none, some rv, some dv, false⟩
              now = .error (updateRating sc.z_pk rv
                (updateTitle sc.z_pk t st), .invalidDifficulty dv) := by
            simp [editRelational, hbad, hrok]
          simp [scoresEditHandle, hres, hrel]
        | some ks =>
          obtain ⟨mk, hmk⟩ := hkey ks rfl
          have hrel : editRelational st sc.z_pk
              ⟨ident, some t, comp, gen, some ks, some rv, some dv, false⟩
              now = .error (updateRating sc.z_pk rv (updateKey sc.z_pk
                mk.code (updateTitle sc.z_pk t st)), .invalidDifficulty dv) := by
            simp [editRelational, hmk, hbad, hrok]
          simp [scoresEditHandle, hres, hrel]

/-- Witness for C3 (amended): an edit carrying only rating 0 fails with
`InvalidRating` and leaves both stores unchanged. -/
theorem c3_bounds_reject_before_write_witness :
    (scoresEditHandle
        (⟨[⟨1, 6, "/a.pdf", "Old", none, none, none, none, none, none,
            none, none, 1⟩], [], [], [], [], [], []⟩ : DbState)
        (some (PValue.dict [("title", PValue.str "Old")]))
        ⟨"1", none, none, none, none, some 0, none, false⟩ 99).err =
      some (.invalidRating 0) ∧
    (scoresEditHandle
        (⟨[⟨1, 6, "/a.pdf", "Old", none, none, none, none, none, none,
            none, none, 1⟩], [], [], [], [], [], []⟩ : DbState)
        (some (PValue.dict [("title", PValue.str "Old")]))
        ⟨"1", none, none, none, none, some 0, none, false⟩ 99).mirror =
      some (PValue.dict [("title", PValue.str "Old")]) ∧
    (scoresEditHandle
        (⟨[⟨1, 6, "/a.pdf", "Old", none, none, none, none, none, none,
            none, none, 1⟩], [], [], [], [], [], []⟩ : DbState)
        (some (PValue.dict [("title", PValue.str "Old")]))
        ⟨"1", none, none, none, none, some 0, none, false⟩ 99).db =
      (⟨[⟨1, 6, "/a.pdf", "Old", none, none, none, none, none, none,
          none, none, 1⟩], [], [], [], [], [], []⟩ : DbState) := by
  have h := (c3_bounds_reject_before_write
    (⟨[⟨1, 6, "/a.pdf", "Old", none, none, none, none, none, none,
        none, none, 1⟩], [], [], [], [], [], []⟩ : DbState)
    (some (PValue.dict [("title", PValue.str "Old")]))
    "1" none none none none (some 0) none 99
    ⟨1, 6, "/a.pdf", "Old", none, none, none, none, none, none,
      none, none, 1⟩ rfl
    (fun ks hks => Option.noConfusion hks)).1 0 rfl (by decide)
  exact ⟨h.1, h.2.1, h.2.2 rfl rfl⟩

end ForScore
